import Mathlib

/-!
Verification of the tool-execution pipeline (`tool_executor`).

This file gives a shallow embedding, in Lean 4, of the parts of the
repository that the checked claims are about:

* `dependency_parser.py` — extraction and normalisation of the
  `dependencies` declaration of a downloaded tool file;
* `schema_validator.py` — schema-driven validation and coercion of the
  caller's input document (wrapper detection, union types, defaults,
  constraint checks);
* `github_downloader.py` — the result envelope of the artifact download;
* `virtual_env_manager.py` — the cleanup protocol of a sandbox directory;
* `tool_executor.py` — the pipeline orchestrator `execute_tool`
  (step gating, error envelopes, the `finally` teardown).

Modelling conventions.  Python/JSON values are embedded as the inductive
`JVal` below (machine floats are idealised as rationals; the claims under
check never exercise float rounding).  Python dictionaries are embedded as
association lists in insertion order with distinct keys, which is how every
dictionary observed by this code is built.  External effects (filesystem,
subprocesses, network, MongoDB) are parameters of the embedded control
flow: each pipeline step takes the outcome that the external world would
supply and the embedding reproduces what the Python code does with it.
Python exceptions are embedded as `Except` values carrying the exception
message plus whether the exception class is `ValueError`/`TypeError`
(the two classes the union-type loop catches).
-/

/-- Embedded Python/JSON value.  `float` idealises a Python float as an
exact rational (binary rounding is not modelled; no claim depends on it). -/
inductive JVal where
  | null : JVal
  | bool (b : Bool) : JVal
  | int (n : Int) : JVal
  | float (q : Rat) : JVal
  | str (s : String) : JVal
  | arr (xs : List JVal) : JVal
  | obj (kvs : List (String × JVal)) : JVal
deriving Repr

/-- A Python dictionary with string keys, in insertion order. -/
abbrev JDict := List (String × JVal)

namespace PyEmbed

/-- `dict.get(key)`: first binding of `key`, if any. -/
def jget (kvs : JDict) (key : String) : Option JVal :=
  match kvs with
  | [] => none
  | (k, v) :: rest => if k = key then some v else jget rest key

/-- `dict.get(key, default)`. -/
def jgetD (kvs : JDict) (key : String) (d : JVal) : JVal :=
  (jget kvs key).getD d

/-- `key in dict`. -/
def jhas (kvs : JDict) (key : String) : Bool :=
  (jget kvs key).isSome

/-- `{**d, key: v}`: replace the first binding of `key` in place, or append. -/
def jset (kvs : JDict) (key : String) (v : JVal) : JDict :=
  match kvs with
  | [] => [(key, v)]
  | (k, w) :: rest => if k = key then (k, v) :: rest else (k, w) :: jset rest key v

/-- Python truthiness of an embedded value. -/
def pyTruthy : JVal → Bool
  | .null => false
  | .bool b => b
  | .int n => n != 0
  | .float q => q != 0
  | .str s => s ≠ ""
  | .arr xs => !xs.isEmpty
  | .obj kvs => !kvs.isEmpty

/-- Truthiness of `dict.get(key)` (`None` when the key is absent). -/
def pyTruthyOpt : Option JVal → Bool
  | none => false
  | some v => pyTruthy v

mutual
/-- Python `==` between embedded values: structural equality except that
booleans compare equal to the numbers 0/1 and ints to equal floats. -/
def pyEq : JVal → JVal → Bool
  | .bool b, .bool c => b = c
  | .bool b, .int n => (if b then (1 : Int) else 0) = n
  | .int n, .bool b => (if b then (1 : Int) else 0) = n
  | .bool b, .float q => (if b then (1 : Rat) else 0) = q
  | .float q, .bool b => (if b then (1 : Rat) else 0) = q
  | .int n, .float q => (n : Rat) = q
  | .float q, .int n => (n : Rat) = q
  | .int n, .int m => n = m
  | .float q, .float r => q = r
  | .str s, .str t => s = t
  | .null, .null => true
  | .arr xs, .arr ys => pyEqList xs ys
  | .obj ks, .obj ls => pyEqDict ks ls
  | _, _ => false

/-- Python `==` on lists, elementwise. -/
def pyEqList : List JVal → List JVal → Bool
  | [], [] => true
  | x :: xs, y :: ys => pyEq x y && pyEqList xs ys
  | _, _ => false

/-- Python `==` on dicts (insertion order is irrelevant to Python `==`,
but every dict this code compares is built in schema order, so positional
comparison is faithful here). -/
def pyEqDict : JDict → JDict → Bool
  | [], [] => true
  | (k, v) :: ks, (l, w) :: ls => k = l && pyEq v w && pyEqDict ks ls
  | _, _ => false
end

end PyEmbed

/-- Decimal rendering of a rational as Python renders the floats this code
can produce from JSON documents (`str(1.5) = "1.5"`); exact only for
terminating decimals, which is all the claims exercise. -/
def ratStr (q : Rat) : String :=
  if q.den = 1 then toString q.num ++ ".0" else toString q.num ++ "/" ++ toString q.den

/-- Backslash-escape of the backslash and of the quote character `q`, as
Python's `repr` escapes a string's body (the strings this program formats
contain no control characters). -/
def pyReprEscapeWith (q : Char) : List Char → List Char
  | [] => []
  | c :: cs =>
    if c = Char.ofNat 92 then Char.ofNat 92 :: Char.ofNat 92 :: pyReprEscapeWith q cs
    else if c = q then Char.ofNat 92 :: q :: pyReprEscapeWith q cs
    else c :: pyReprEscapeWith q cs

/-- Python `repr` of a string: single-quoted, except that a string holding
a single quote and no double quote is double-quoted. -/
def pyReprStr (s : String) : String :=
  if s.data.contains (Char.ofNat 39) && !s.data.contains (Char.ofNat 34) then
    String.mk (Char.ofNat 34 :: (pyReprEscapeWith (Char.ofNat 34) s.data ++ [Char.ofNat 34]))
  else
    String.mk (Char.ofNat 39 :: (pyReprEscapeWith (Char.ofNat 39) s.data ++ [Char.ofNat 39]))

mutual
/-- Python `str(value)` for an embedded value. -/
def pyStr : JVal → String
  | .null => "None"
  | .bool b => if b then "True" else "False"
  | .int n => toString n
  | .float q => ratStr q
  | .str s => s
  | .arr xs => "[" ++ pyReprSeq xs ++ "]"
  | .obj kvs => "\x7b" ++ pyReprDict kvs ++ "\x7d"

/-- Python `repr(value)`: like `str` but strings are quoted. -/
def pyRepr : JVal → String
  | .str s => pyReprStr s
  | .null => "None"
  | .bool b => if b then "True" else "False"
  | .int n => toString n
  | .float q => ratStr q
  | .arr xs => "[" ++ pyReprSeq xs ++ "]"
  | .obj kvs => "\x7b" ++ pyReprDict kvs ++ "\x7d"

/-- Comma-separated `repr` of sequence elements. -/
def pyReprSeq : List JVal → String
  | [] => ""
  | [x] => pyRepr x
  | x :: xs => pyRepr x ++ ", " ++ pyReprSeq xs

/-- Comma-separated `repr` of dict items. -/
def pyReprDict : List (String × JVal) → String
  | [] => ""
  | [(k, v)] => pyReprStr k ++ ": " ++ pyRepr v
  | (k, v) :: kvs => pyReprStr k ++ ": " ++ pyRepr v ++ ", " ++ pyReprDict kvs
end

/-- Python `str` of a list of strings (`f"{errors}"` on a list of str). -/
def pyReprStrList (xs : List String) : String :=
  pyStr (.arr (xs.map JVal.str))

/-- The whitespace set of Python's `str.strip` / `str.split`. -/
def pyIsSpaceChar (c : Char) : Bool :=
  c = ' ' || c = '\t' || c = '\n' || c = '\r' || c = Char.ofNat 11 || c = Char.ofNat 12

/-- `str.strip()` (kernel-reducible form over the character list). -/
def pyStrip (s : String) : String :=
  String.mk (((s.toList.dropWhile pyIsSpaceChar).reverse.dropWhile pyIsSpaceChar).reverse)

/-- `str.lower()` (ASCII fragment). -/
def pyLower (s : String) : String :=
  String.mk (s.toList.map Char.toLower)

/-- `value.split(",")`. -/
def splitCommaAux : List Char → List Char → List String
  | [], cur => [String.mk cur.reverse]
  | c :: rest, cur =>
      if c = ',' then String.mk cur.reverse :: splitCommaAux rest []
      else splitCommaAux rest (c :: cur)

/-- Python `str.split(",")`. -/
def splitComma (s : String) : List String := splitCommaAux s.toList []

/-- `s.endswith(suffix)`. -/
def endsWithPy (s suffix : String) : Bool :=
  suffix.toList.isSuffixOf s.toList

/-- `s.startswith(prefix)` (used to state envelope-message properties). -/
def startsWithPy (s pre : String) : Bool :=
  pre.toList.isPrefixOf s.toList

/-- Occurrence scan of `str.replace` (left to right, non-overlapping). -/
def replaceStrAux : Nat → List Char → List Char → List Char → List Char
  | 0, cs, _, _ => cs
  | _ + 1, [], _, _ => []
  | f + 1, c :: cs, pat, rep =>
      if pat.isPrefixOf (c :: cs) then
        rep ++ replaceStrAux f ((c :: cs).drop pat.length) pat rep
      else c :: replaceStrAux f cs pat rep

/-- Python `s.replace(pat, rep)` for a nonempty `pat`. -/
def replaceStr (s pat rep : String) : String :=
  String.mk (replaceStrAux (s.length + 1) s.toList pat.toList rep.toList)

section DependencyParser
/-!  ### `dependency_parser.py` — `DependencyParser`  -/

/-- The raw right-hand side of a `dependencies = ...` declaration, as the
safe literal evaluator of `_find_dependencies_variable` produces it.
(The manual fallback parser produces bare strings, covered by `str`.) -/
inductive PyVal where
  | str (s : String) : PyVal
  | listv (xs : List PyVal) : PyVal
  | tuplev (xs : List PyVal) : PyVal
  | intv (n : Int) : PyVal
  | boolv (b : Bool) : PyVal
  | nonev : PyVal
deriving Repr

/-- Python truthiness of a raw dependencies value (`if not dependencies_raw`). -/
def pyValTruthy : PyVal → Bool
  | .str s => s ≠ ""
  | .listv xs => !xs.isEmpty
  | .tuplev xs => !xs.isEmpty
  | .intv n => n != 0
  | .boolv b => b
  | .nonev => false

/-- Python `str()` of a raw dependencies item (used by the
`_process_dependency_item` fallback branch). -/
def pyValStr : PyVal → String
  | .str s => s
  | .intv n => toString n
  | .boolv b => if b then "True" else "False"
  | .nonev => "None"
  | .listv _ => "[...]"
  | .tuplev _ => "(...)"

/-- `DependencyParser.package_mappings` (fixed alias table). -/
def packageMappings : List (String × String) :=
  [("cv2", "opencv-python"), ("PIL", "Pillow"), ("sklearn", "scikit-learn"),
   ("yaml", "PyYAML"), ("dotenv", "python-dotenv")]

/-- Alias lookup: mapped name if the table has the key, else pass through. -/
def aliasApply (p : String) : String :=
  match (packageMappings.find? (fun kv => kv.1 = p)) with
  | some kv => kv.2
  | none => p

/-- `str.strip("\x27\"")`: drop leading and trailing quote characters. -/
def stripQuotes (s : String) : String :=
  let isQ : Char → Bool := fun c => c = '\x27' || c = '"'
  String.mk (((s.toList.dropWhile isQ).reverse.dropWhile isQ).reverse)

/-- One character of the version-specifier class `[><=!]`. -/
def isSpecChar (c : Char) : Bool :=
  c = '>' || c = '<' || c = '=' || c = '!'

/-- `re.sub(r"[><=!]+.*$", "", package)` on a whitespace-trimmed string.
Without `re.MULTILINE`, `$` only matches at the end of the string, so the
pattern matches at the leftmost specifier character that has no later
newline; everything from that character on is removed.  (`_clean_package_name`
strips whitespace first, so the trailing-newline form of `$` cannot arise.) -/
def subSpec : List Char → List Char
  | [] => []
  | c :: rest =>
      if isSpecChar c && !(rest.contains '\n') then []
      else c :: subSpec rest

/-- `^[a-zA-Z0-9][a-zA-Z0-9\-_.]*$`: the package-name validation regex of
`_clean_package_name` (`re.match` anchors at the start; the input is
whitespace-trimmed at this point, so the `$`-before-final-newline case of
Python's `$` cannot fire and a strict full match is faithful). -/
def validPackageName (s : String) : Bool :=
  match s.toList with
  | [] => false
  | c :: rest =>
      (c.isAlphanum && rest.all (fun d => d.isAlphanum || d = '-' || d = '_' || d = '.'))

/-- `DependencyParser._clean_package_name`. -/
def cleanPackageName (p : String) : String :=
  if p = "" then ""
  else
    let pkg := pyStrip (stripQuotes (pyStrip p))
    if pkg = "" then ""
    else
      let pkg := pyStrip (String.mk (subSpec pkg.toList))
      let pkg := aliasApply pkg
      if validPackageName pkg then pkg else ""

/-- `DependencyParser._process_dependency_item`: candidates contributed by
one element of the dependencies list. -/
def processDependencyItem : PyVal → List String
  | .str s =>
      let p := cleanPackageName s
      if p ≠ "" then [p] else []
  | .listv xs =>
      xs.foldl (fun acc sub =>
        match sub with
        | .str s => let p := cleanPackageName s; if p ≠ "" then acc ++ [p] else acc
        | _ => acc) []
  | .tuplev xs =>
      xs.foldl (fun acc sub =>
        match sub with
        | .str s => let p := cleanPackageName s; if p ≠ "" then acc ++ [p] else acc
        | _ => acc) []
  | other =>
      let istr := pyStrip (pyValStr other)
      if istr ≠ "" && istr ≠ "None" then
        let p := cleanPackageName istr
        if p ≠ "" then [p] else []
      else []

/-- Set-insertion into the accumulator (`unique_packages` is a Python set;
the result is sorted afterwards, so the model keeps first-insertion order). -/
def insertUnique (acc : List String) (s : String) : List String :=
  if s ∈ acc then acc else acc ++ [s]

/-- Code-point lexicographic `≤` on character lists (executable form of the
order Python's `sorted` uses on strings). -/
def charListLe : List Char → List Char → Bool
  | [], _ => true
  | _ :: _, [] => false
  | a :: as, b :: bs => if a < b then true else if b < a then false else charListLe as bs

/-- String order used by Python's `sorted` (code-point lexicographic). -/
def strLeB (a b : String) : Bool := charListLe a.toList b.toList

/-- Python's `sorted` on a duplicate-free list of strings (insertion sort
produces the same, unique, sorted arrangement). -/
def pySorted (l : List String) : List String :=
  List.insertionSort (fun a b => strLeB a b = true) l

/-- The `unique_packages` set accumulated by `_parse_dependencies`: one
cleaned name for a bare string, the per-item candidates folded in for a
list or tuple, nothing for any other shape. -/
def uniquePackagesOf : PyVal → List String
  | .str s =>
      let p := cleanPackageName s
      if p ≠ "" then [p] else []
  | .listv xs => xs.foldl (fun acc item => (processDependencyItem item).foldl insertUnique acc) []
  | .tuplev xs => xs.foldl (fun acc item => (processDependencyItem item).foldl insertUnique acc) []
  | _ => []

/-- `DependencyParser._parse_dependencies`. -/
def parseDependencies (raw : PyVal) : List String :=
  if !pyValTruthy raw then []
  else
    let cleanPackages := (uniquePackagesOf raw).filter (fun p => p ≠ "" && pyStrip p ≠ "")
    pySorted cleanPackages

/-- Outcome of locating the `dependencies` variable in a tool file, from
the point of view of `extract_dependencies_from_file`: the file may be
missing, reading/parsing may raise, the variable may be absent, or a raw
value is found. -/
inductive ExtractOutcome where
  | fileMissing : ExtractOutcome
  | raised (msg : String) : ExtractOutcome
  | noVariable : ExtractOutcome
  | found (raw : PyVal) : ExtractOutcome
deriving Repr

/-- `DependencyParser.extract_dependencies_from_file`: total; every failure
mode returns the empty list, a found value is parsed. -/
def extractDependenciesFromFile : ExtractOutcome → List String
  | .fileMissing => []
  | .raised _ => []
  | .noVariable => []
  | .found raw => parseDependencies raw

end DependencyParser

section PyExceptions
/-!  ### Python exception model used by the schema validator

The union-type loop of `_validate_field_recursive` catches exactly
`(ValueError, TypeError)`; its enclosing `try` and `validate_input`'s
`try` catch every exception.  An embedded exception therefore carries its
message and whether it belongs to the caught pair.  -/

/-- An embedded Python exception: `caught` is true when the exception class
is `ValueError` or `TypeError` (the pair the union loop catches). -/
structure PyExc where
  caught : Bool
  msg : String
deriving Repr, DecidableEq

/-- Python type name of an embedded value (as used in exception messages). -/
def typeName : JVal → String
  | .null => "NoneType"
  | .bool _ => "bool"
  | .int _ => "int"
  | .float _ => "float"
  | .str _ => "str"
  | .arr _ => "list"
  | .obj _ => "dict"

/-- `AttributeError` from calling a missing method on a value. -/
def attrError (v : JVal) (attr : String) : PyExc :=
  ⟨false, "'" ++ typeName v ++ "' object has no attribute '" ++ attr ++ "'"⟩

/-- Scan for `a` as a contiguous sublist of `b`. -/
def substrCharB : List Char → List Char → Bool
  | a, [] => a.isEmpty
  | a, b :: rest => a.isPrefixOf (b :: rest) || substrCharB a rest

/-- Python substring test `a in b`. -/
def substrB (a b : String) : Bool :=
  substrCharB a.toList b.toList

end PyExceptions

section JsonLoads
/-!  ### `json.loads`, as used by `_convert_to_array` / `_convert_to_object`

A fueled recursive-descent JSON reader producing `JVal`.  `\uXXXX` escapes
and pathological inputs beyond the fuel bound are outside the modelled
fragment (no claim exercises them); numbers without `.`/exponent become
`int`, others `float`.  -/

/-- Skip JSON whitespace. -/
def jsonWs (cs : List Char) : List Char :=
  cs.dropWhile (fun c => c = ' ' || c = '\t' || c = '\n' || c = '\r')

/-- Read a JSON string body after the opening quote. -/
def jsonParseStringBody : Nat → List Char → List Char → Option (String × List Char)
  | 0, _, _ => none
  | _ + 1, [], _ => none
  | f + 1, c :: rest, acc =>
    if c = '"' then some (String.mk acc.reverse, rest)
    else if c = '\\' then
      match rest with
      | [] => none
      | e :: rest2 =>
        let ec := if e = 'n' then '\n' else if e = 't' then '\t' else if e = 'r' then '\r'
                  else if e = 'b' then Char.ofNat 8 else if e = 'f' then Char.ofNat 12 else e
        jsonParseStringBody f rest2 (ec :: acc)
    else jsonParseStringBody f rest (c :: acc)

/-- Value of a list of decimal digits. -/
def digitsToNat (ds : List Char) : Nat :=
  ds.foldl (fun n c => n * 10 + (c.toNat - 48)) 0

/-- Read a JSON number (`-?digits(.digits)?([eE][+-]?digits)?`). -/
def jsonParseNumber (cs : List Char) : Option (JVal × List Char) :=
  let (neg, cs1) := match cs with
    | '-' :: rest => (true, rest)
    | _ => (false, cs)
  let intDigits := cs1.takeWhile Char.isDigit
  let cs2 := cs1.dropWhile Char.isDigit
  if intDigits.isEmpty then none
  else
    let (fracDigits, cs3) := match cs2 with
      | '.' :: rest => (rest.takeWhile Char.isDigit, rest.dropWhile Char.isDigit)
      | _ => ([], cs2)
    let hasFrac := match cs2 with
      | '.' :: _ => true
      | _ => false
    if hasFrac && fracDigits.isEmpty then none
    else
      let expPart : Option (Int × List Char) := match cs3 with
        | 'e' :: rest | 'E' :: rest =>
          let (esign, rest2) := match rest with
            | '-' :: r => ((-1 : Int), r)
            | '+' :: r => ((1 : Int), r)
            | _ => ((1 : Int), rest)
          let eDigits := rest2.takeWhile Char.isDigit
          if eDigits.isEmpty then none
          else some (esign * (digitsToNat eDigits : Int), rest2.dropWhile Char.isDigit)
        | _ => none
      let hasExp := match cs3 with
        | 'e' :: _ | 'E' :: _ => true
        | _ => false
      if hasExp && expPart.isNone then none
      else
        let (expo, csEnd) := match expPart with
          | some (e, r) => (e, r)
          | none => ((0 : Int), cs3)
        let mantissa : Int := (digitsToNat (intDigits ++ fracDigits) : Int)
        let mantissa := if neg then -mantissa else mantissa
        let scale : Int := expo - (fracDigits.length : Int)
        if !hasFrac && !hasExp then some (.int mantissa, csEnd)
        else
          let q : Rat := (mantissa : Rat) *
            (if 0 ≤ scale then ((10 : Rat) ^ scale.toNat)
             else ((10 : Rat) ^ (-scale).toNat)⁻¹)
          some (.float q, csEnd)

mutual
/-- Read one JSON value. -/
def jsonParseVal : Nat → List Char → Option (JVal × List Char)
  | 0, _ => none
  | f + 1, cs =>
    match jsonWs cs with
    | [] => none
    | c :: rest =>
      if c = '"' then
        match jsonParseStringBody (rest.length + 1) rest [] with
        | some (s, r) => some (.str s, r)
        | none => none
      else if c = '[' then jsonParseArrStart f rest
      else if c = '\x7b' then jsonParseObjStart f rest
      else if c = 't' then
        if rest.take 3 = ['r', 'u', 'e'] then some (.bool true, rest.drop 3) else none
      else if c = 'f' then
        if rest.take 4 = ['a', 'l', 's', 'e'] then some (.bool false, rest.drop 4) else none
      else if c = 'n' then
        if rest.take 3 = ['u', 'l', 'l'] then some (.null, rest.drop 3) else none
      else jsonParseNumber (c :: rest)

/-- After `[`: empty array or first element. -/
def jsonParseArrStart : Nat → List Char → Option (JVal × List Char)
  | 0, _ => none
  | f + 1, cs =>
    match jsonWs cs with
    | ']' :: rest => some (.arr [], rest)
    | cs2 =>
      match jsonParseVal f cs2 with
      | some (v, r) => jsonParseArrRest f r [v]
      | none => none

/-- After an array element: `,` and more, or `]`. -/
def jsonParseArrRest : Nat → List Char → List JVal → Option (JVal × List Char)
  | 0, _, _ => none
  | f + 1, cs, acc =>
    match jsonWs cs with
    | ']' :: rest => some (.arr acc, rest)
    | ',' :: rest =>
      match jsonParseVal f rest with
      | some (v, r) => jsonParseArrRest f r (acc ++ [v])
      | none => none
    | _ => none

/-- After `\x7b`: empty object or first pair. -/
def jsonParseObjStart : Nat → List Char → Option (JVal × List Char)
  | 0, _ => none
  | f + 1, cs =>
    match jsonWs cs with
    | '\x7d' :: rest => some (.obj [], rest)
    | cs2 => jsonParsePair f cs2 []

/-- One `"key": value` pair. -/
def jsonParsePair : Nat → List Char → List (String × JVal) → Option (JVal × List Char)
  | 0, _, _ => none
  | f + 1, cs, acc =>
    match jsonWs cs with
    | '"' :: rest =>
      match jsonParseStringBody (rest.length + 1) rest [] with
      | some (k, r) =>
        match jsonWs r with
        | ':' :: r2 =>
          match jsonParseVal f r2 with
          | some (v, r3) => jsonParseObjRest f r3 (acc ++ [(k, v)])
          | none => none
        | _ => none
      | none => none
    | _ => none

/-- After an object pair: `,` and more, or `\x7d`. -/
def jsonParseObjRest : Nat → List Char → List (String × JVal) → Option (JVal × List Char)
  | 0, _, _ => none
  | f + 1, cs, acc =>
    match jsonWs cs with
    | '\x7d' :: rest => some (.obj acc, rest)
    | ',' :: rest => jsonParsePair f rest acc
    | _ => none
end

/-- `json.loads` on the modelled JSON fragment (`none` models
`json.JSONDecodeError`). -/
def jsonLoads (s : String) : Option JVal :=
  match jsonParseVal (2 * s.length + 2) s.toList with
  | some (v, rest) => if (jsonWs rest).isEmpty then some v else none
  | none => none

end JsonLoads

section RegexEngine
/-!  ### `re.match`, as used by the `pattern` constraint

A fueled backtracking matcher for the regex fragment the tool schemas use
(literals, escapes, `.`, `^` at the start, `$`, classes, groups with `|`,
and the `*`/`+`/`?` quantifiers).  Patterns outside the fragment are
reported as an (uncaught) pattern-compilation error, the way `re.error`
escapes the union loop's `(ValueError, TypeError)` handler.  Only the
existence of a match matters to the validator (`if not re.match(...)`),
so backtracking order is irrelevant.  -/

/-- Quantifier of one regex piece. -/
inductive RegexQuant where
  | one : RegexQuant
  | star : RegexQuant
  | plus : RegexQuant
  | opt : RegexQuant
deriving Repr

/-- One regex atom. -/
inductive RegexAtom where
  | rchar (c : Char) : RegexAtom
  | rany : RegexAtom
  | rclass (neg : Bool) (ranges : List (Char × Char)) : RegexAtom
  | rdigit : RegexAtom
  | rnondigit : RegexAtom
  | rword : RegexAtom
  | rnonword : RegexAtom
  | rspace : RegexAtom
  | rnonspace : RegexAtom
  | rend : RegexAtom
  | rgroup (alts : List (List (RegexAtom × RegexQuant))) : RegexAtom
deriving Repr

/-- A sequence of quantified atoms. -/
abbrev RegexSeq := List (RegexAtom × RegexQuant)

/-- Class ranges for `\d`, `\w`, `\s` (used inside character classes). -/
def escClassRanges (e : Char) : Option (List (Char × Char)) :=
  if e = 'd' then some [('0', '9')]
  else if e = 'w' then some [('a', 'z'), ('A', 'Z'), ('0', '9'), ('_', '_')]
  else if e = 's' then some [(' ', ' '), ('\t', '\t'), ('\n', '\n'), ('\r', '\r'),
    (Char.ofNat 11, Char.ofNat 11), (Char.ofNat 12, Char.ofNat 12)]
  else none

/-- Parse the body of a `[...]` class (after a possible `^`). -/
def regexParseClassItems : Nat → List Char → List (Char × Char) →
    Option (List (Char × Char) × List Char)
  | 0, _, _ => none
  | _ + 1, [], _ => none
  | f + 1, c :: rest, acc =>
    if c = ']' then some (acc, rest)
    else if c = '\\' then
      match rest with
      | [] => none
      | e :: rest2 =>
        match escClassRanges e with
        | some rs => regexParseClassItems f rest2 (acc ++ rs)
        | none => regexParseClassItems f rest2 (acc ++ [(e, e)])
    else
      match rest with
      | '-' :: d :: rest2 =>
        if d = ']' then regexParseClassItems f ('-' :: d :: rest2) (acc ++ [(c, c)])
        else regexParseClassItems f rest2 (acc ++ [(c, d)])
      | _ => regexParseClassItems f rest (acc ++ [(c, c)])

/-- Atom for an escape sequence outside a class. -/
def regexEscAtom (e : Char) : Option RegexAtom :=
  if e = 'd' then some .rdigit
  else if e = 'D' then some .rnondigit
  else if e = 'w' then some .rword
  else if e = 'W' then some .rnonword
  else if e = 's' then some .rspace
  else if e = 'S' then some .rnonspace
  else if e.isAlphanum then none
  else some (.rchar e)

/-- Read the quantifier following an atom. -/
def regexQuantOf (cs : List Char) : RegexQuant × List Char :=
  match cs with
  | '*' :: rest => (.star, rest)
  | '+' :: rest => (.plus, rest)
  | '?' :: rest => (.opt, rest)
  | _ => (.one, cs)

mutual
/-- Parse alternatives up to `)` (or the end of the pattern). -/
def regexParseAlts : Nat → List Char → Option (List RegexSeq × List Char)
  | 0, _ => none
  | f + 1, cs =>
    match regexParseSeq f cs [] with
    | none => none
    | some (seq, rest) =>
      match rest with
      | '|' :: rest2 =>
        match regexParseAlts f rest2 with
        | some (alts, rest3) => some (seq :: alts, rest3)
        | none => none
      | _ => some ([seq], rest)

/-- Parse one sequence of quantified atoms. -/
def regexParseSeq : Nat → List Char → RegexSeq → Option (RegexSeq × List Char)
  | 0, _, _ => none
  | _ + 1, [], acc => some (acc, [])
  | f + 1, c :: rest, acc =>
    if c = '|' || c = ')' then some (acc, c :: rest)
    else if c = '(' then
      match regexParseAlts f rest with
      | some (alts, ')' :: rest2) =>
        let (q, rest3) := regexQuantOf rest2
        regexParseSeq f rest3 (acc ++ [(.rgroup alts, q)])
      | _ => none
    else if c = '[' then
      let (neg, body) := match rest with
        | '^' :: b => (true, b)
        | _ => (false, rest)
      match regexParseClassItems (body.length + 1) body [] with
      | some (ranges, rest2) =>
        let (q, rest3) := regexQuantOf rest2
        regexParseSeq f rest3 (acc ++ [(.rclass neg ranges, q)])
      | none => none
    else if c = '\\' then
      match rest with
      | [] => none
      | e :: rest2 =>
        match regexEscAtom e with
        | some a =>
          let (q, rest3) := regexQuantOf rest2
          regexParseSeq f rest3 (acc ++ [(a, q)])
        | none => none
    else if c = '.' then
      let (q, rest2) := regexQuantOf rest
      regexParseSeq f rest2 (acc ++ [(.rany, q)])
    else if c = '$' then
      regexParseSeq f rest (acc ++ [(.rend, .one)])
    else if c = '*' || c = '+' || c = '?' || c = '^' || c = '\x7b' then none
    else
      let (q, rest2) := regexQuantOf rest
      regexParseSeq f rest2 (acc ++ [(.rchar c, q)])
end

/-- Parse a whole pattern (a leading `^` is redundant under `re.match`). -/
def regexParse (pat : String) : Option (List RegexSeq) :=
  let cs := match pat.toList with
    | '^' :: rest => rest
    | cs => cs
  match regexParseAlts (cs.length + 1) cs with
  | some (alts, []) => some alts
  | _ => none

/-- Membership of a character in a class. -/
def charInRanges (c : Char) (ranges : List (Char × Char)) : Bool :=
  ranges.any (fun r => r.1 ≤ c && c ≤ r.2)

/-- Word character (`\w`). -/
def isWordChar (c : Char) : Bool := c.isAlphanum || c = '_'

/-- Whitespace character (`\s`). -/
def isSpaceChar (c : Char) : Bool :=
  c = ' ' || c = '\t' || c = '\n' || c = '\r' || c = Char.ofNat 11 || c = Char.ofNat 12

mutual
/-- Match one atom at the head of the input, then continue. -/
def regexMatchAtom : Nat → RegexAtom → List Char → (List Char → Bool) → Bool
  | 0, _, _, _ => false
  | f + 1, a, cs, k =>
    match a with
    | .rend =>
      match cs with
      | [] => k cs
      | ['\n'] => k cs
      | _ => false
    | .rgroup alts => regexMatchAlts f alts cs k
    | .rchar c =>
      match cs with
      | d :: rest => if d = c then k rest else false
      | [] => false
    | .rany =>
      match cs with
      | d :: rest => if d ≠ '\n' then k rest else false
      | [] => false
    | .rclass neg ranges =>
      match cs with
      | d :: rest => if (if neg then !charInRanges d ranges else charInRanges d ranges) then k rest else false
      | [] => false
    | .rdigit =>
      match cs with
      | d :: rest => if d.isDigit then k rest else false
      | [] => false
    | .rnondigit =>
      match cs with
      | d :: rest => if !d.isDigit then k rest else false
      | [] => false
    | .rword =>
      match cs with
      | d :: rest => if isWordChar d then k rest else false
      | [] => false
    | .rnonword =>
      match cs with
      | d :: rest => if !isWordChar d then k rest else false
      | [] => false
    | .rspace =>
      match cs with
      | d :: rest => if isSpaceChar d then k rest else false
      | [] => false
    | .rnonspace =>
      match cs with
      | d :: rest => if !isSpaceChar d then k rest else false
      | [] => false

/-- Match an atom zero or more times, then continue. -/
def regexMatchStar : Nat → RegexAtom → List Char → (List Char → Bool) → Bool
  | 0, _, _, _ => false
  | f + 1, a, cs, k =>
    (regexMatchAtom f a cs (fun cs2 =>
      if cs2.length < cs.length then regexMatchStar f a cs2 k else k cs2)) || k cs

/-- Match a sequence of quantified atoms, then continue. -/
def regexMatchSeq : Nat → RegexSeq → List Char → (List Char → Bool) → Bool
  | 0, _, _, _ => false
  | _ + 1, [], cs, k => k cs
  | f + 1, (a, q) :: ps, cs, k =>
    match q with
    | .one => regexMatchAtom f a cs (fun cs2 => regexMatchSeq f ps cs2 k)
    | .opt => regexMatchAtom f a cs (fun cs2 => regexMatchSeq f ps cs2 k) || regexMatchSeq f ps cs k
    | .plus => regexMatchAtom f a cs (fun cs2 => regexMatchStar f a cs2 (fun cs3 => regexMatchSeq f ps cs3 k))
    | .star => regexMatchStar f a cs (fun cs2 => regexMatchSeq f ps cs2 k)

/-- Try each alternative. -/
def regexMatchAlts : Nat → List RegexSeq → List Char → (List Char → Bool) → Bool
  | 0, _, _, _ => false
  | _ + 1, [], _, _ => false
  | f + 1, seq :: alts, cs, k =>
    regexMatchSeq f seq cs k || regexMatchAlts f alts cs k
end

/-- Size of a parsed pattern, for the matcher's fuel bound. -/
def regexSizeOfAlts (alts : List RegexSeq) : Nat :=
  1 + 8 * alts.length + 8 * (alts.map List.length).sum

/-- `re.match(pattern, value)` truthiness: `Except` error models `re.error`
(an exception class the union loop does not catch). -/
def reMatch (pat s : String) : Except PyExc Bool :=
  match regexParse pat with
  | none => .error ⟨false, "re.error: bad or unsupported pattern: " ++ pat⟩
  | some alts =>
    .ok (regexMatchAlts ((regexSizeOfAlts alts + 2) * (s.length + 2) * 4) alts s.toList (fun _ => true))

end RegexEngine

section SchemaConverters
/-!  ### `schema_validator.py` — type converters (`_convert_to_*`)  -/

open PyEmbed

/-- A nonempty all-digit string (`str.isdigit`, ASCII fragment). -/
def pyIsDigit (s : String) : Bool :=
  s ≠ "" && s.toList.all Char.isDigit

/-- Value of a nonempty decimal string. -/
def natOfDigits (s : String) : Nat := digitsToNat s.toList

/-- Python `int(str)`: optional sign, then digits, surrounding whitespace
allowed (`none` models `ValueError`). -/
def pyIntFull (s : String) : Option Int :=
  let t := pyStrip s
  match t.toList with
  | '-' :: ds => if ds ≠ [] && ds.all Char.isDigit then some (-(digitsToNat ds : Int)) else none
  | '+' :: ds => if ds ≠ [] && ds.all Char.isDigit then some ((digitsToNat ds : Int)) else none
  | ds => if ds ≠ [] && ds.all Char.isDigit then some ((digitsToNat ds : Int)) else none

/-- Python `float(str)` on ordinary decimal literals, idealised as an exact
rational (`none` models `ValueError`; `inf`/`nan` are outside the fragment). -/
def pyFloatFull (s : String) : Option Rat :=
  let t := pyStrip s
  let (neg, cs) := match t.toList with
    | '-' :: rest => (true, rest)
    | '+' :: rest => (false, rest)
    | cs => (false, cs)
  let intDigits := cs.takeWhile Char.isDigit
  let cs2 := cs.dropWhile Char.isDigit
  let (fracDigits, cs3) := match cs2 with
    | '.' :: rest => (rest.takeWhile Char.isDigit, rest.dropWhile Char.isDigit)
    | _ => ([], cs2)
  if intDigits.isEmpty && fracDigits.isEmpty then none
  else
    let (expo, cs4) : Int × List Char := match cs3 with
      | 'e' :: rest | 'E' :: rest =>
        (match rest with
        | '-' :: r => (-(digitsToNat (r.takeWhile Char.isDigit) : Int), r.dropWhile Char.isDigit)
        | '+' :: r => ((digitsToNat (r.takeWhile Char.isDigit) : Int), r.dropWhile Char.isDigit)
        | r => ((digitsToNat (r.takeWhile Char.isDigit) : Int), r.dropWhile Char.isDigit))
      | _ => (0, cs3)
    let expOk := match cs3 with
      | 'e' :: rest | 'E' :: rest =>
        let r := match rest with
          | '-' :: r => r
          | '+' :: r => r
          | r => r
        !(r.takeWhile Char.isDigit).isEmpty
      | _ => true
    if !cs4.isEmpty || !expOk then none
    else
      let mantissa : Int := (digitsToNat (intDigits ++ fracDigits) : Nat)
      let mantissa := if neg then -mantissa else mantissa
      let scale : Int := expo - (fracDigits.length : Int)
      some ((mantissa : Rat) *
        (if 0 ≤ scale then ((10 : Rat) ^ scale.toNat) else ((10 : Rat) ^ (-scale).toNat)⁻¹))

/-- `int()` applied to a float truncates toward zero. -/
def ratTrunc (q : Rat) : Int := q.num / (q.den : Int)

/-- `SchemaValidator._convert_to_string` (total). -/
def convertToString (v : JVal) : JVal := .str (pyStr v)

/-- `SchemaValidator._convert_to_integer`.  `isinstance(value, int)` is
true for booleans, so a boolean passes through unchanged. -/
def convertToInteger : JVal → Except PyExc JVal
  | .bool b => .ok (.bool b)
  | .int n => .ok (.int n)
  | .float q => .ok (.int (ratTrunc q))
  | .str s =>
    let t := pyStrip s
    if pyIsDigit t then .ok (.int ((natOfDigits t : Nat) : Int))
    else if pyIsDigit (String.mk (t.toList.dropWhile (· = '-'))) then
      match pyIntFull t with
      | some n => .ok (.int n)
      | none => .error ⟨true, "invalid literal for int() with base 10: '" ++ t ++ "'"⟩
    else .error ⟨true, "Cannot convert '" ++ s ++ "' to integer"⟩
  | v => .error ⟨true, "Cannot convert '" ++ pyStr v ++ "' to integer"⟩

/-- `SchemaValidator._convert_to_number`. -/
def convertToNumber : JVal → Except PyExc JVal
  | .bool b => .ok (.bool b)
  | .int n => .ok (.int n)
  | .float q => .ok (.float q)
  | .str s =>
    if !(s.toList.contains '.') && !((pyLower s).toList.contains 'e') then
      match pyIntFull s with
      | some n => .ok (.int n)
      | none => .error ⟨true, "Cannot convert '" ++ s ++ "' to number"⟩
    else
      match pyFloatFull s with
      | some q => .ok (.float q)
      | none => .error ⟨true, "Cannot convert '" ++ s ++ "' to number"⟩
  | v => .error ⟨true, "Cannot convert '" ++ pyStr v ++ "' to number"⟩

/-- `SchemaValidator._convert_to_boolean`. -/
def convertToBoolean : JVal → Except PyExc JVal
  | .bool b => .ok (.bool b)
  | .str s =>
    let lv := pyStrip (pyLower s)
    if lv = "true" || lv = "1" || lv = "yes" || lv = "on" then .ok (.bool true)
    else if lv = "false" || lv = "0" || lv = "no" || lv = "off" then .ok (.bool false)
    else .error ⟨true, "Cannot convert '" ++ s ++ "' to boolean"⟩
  | .int n => .ok (.bool (n != 0))
  | v => .error ⟨true, "Cannot convert '" ++ pyStr v ++ "' to boolean"⟩

/-- `SchemaValidator._convert_to_array` (`tuple` does not arise from JSON
input, so the tuple branch is outside the modelled fragment). -/
def convertToArray : JVal → Except PyExc JVal
  | .arr xs => .ok (.arr xs)
  | .str s =>
    match jsonLoads s with
    | some (.arr xs) => .ok (.arr xs)
    | _ =>
      .ok (.arr ((splitComma s).filterMap (fun part =>
        let t := pyStrip part
        if t ≠ "" then some (.str t) else none)))
  | v => .error ⟨true, "Cannot convert '" ++ pyStr v ++ "' to array"⟩

/-- `SchemaValidator._convert_to_object`. -/
def convertToObject : JVal → Except PyExc JVal
  | .obj kvs => .ok (.obj kvs)
  | .str s =>
    match jsonLoads s with
    | some (.obj kvs) => .ok (.obj kvs)
    | _ => .error ⟨true, "Cannot convert '" ++ s ++ "' to object"⟩
  | v => .error ⟨true, "Cannot convert '" ++ pyStr v ++ "' to object"⟩

/-- `self.type_converters.get(target_type, self._convert_to_string)`. -/
def converterFor (t : String) : JVal → Except PyExc JVal :=
  if t = "string" then fun v => .ok (convertToString v)
  else if t = "integer" then convertToInteger
  else if t = "number" then convertToNumber
  else if t = "boolean" then convertToBoolean
  else if t = "array" then convertToArray
  else if t = "object" then convertToObject
  else fun v => .ok (convertToString v)

/-- `SchemaValidator._convert_type`.  A non-string target type is looked up
in the converter dict: unhashable targets raise `TypeError`, hashable
unknown targets fall back to the string converter. -/
def convertType (value : JVal) (targetType : JVal) : Except PyExc JVal :=
  match value with
  | .null => .ok .null
  | v =>
    match targetType with
    | .str t => converterFor t v
    | .arr _ => .error ⟨true, "unhashable type: 'list'"⟩
    | .obj _ => .error ⟨true, "unhashable type: 'dict'"⟩
    | _ => .ok (convertToString v)

end SchemaConverters

section SchemaConstraints
/-!  ### `schema_validator.py` — `_validate_constraints`  -/

open PyEmbed

/-- Numeric view of a value (`isinstance(value, (int, float))`; booleans
count as ints in Python). -/
def numRat : JVal → Option Rat
  | .int n => some (n : Rat)
  | .bool b => some (if b then 1 else 0)
  | .float q => some q
  | _ => none

/-- Python `x in container` (`Except` models the `TypeError`s). -/
def pyInContainer (x : JVal) (container : JVal) : Except PyExc Bool :=
  match container with
  | .arr ys => .ok (ys.any (fun y => pyEq x y))
  | .str s =>
    match x with
    | .str xs => .ok (substrB xs s)
    | v => .error ⟨true, "'in <string>' requires string as left operand, not " ++ typeName v⟩
  | .obj kvs =>
    match x with
    | .str xs => .ok (jhas kvs xs)
    | .arr _ => .error ⟨true, "unhashable type: 'list'"⟩
    | .obj _ => .error ⟨true, "unhashable type: 'dict'"⟩
    | _ => .ok false
  | c => .error ⟨true, "argument of type '" ++ typeName c ++ "' is not iterable"⟩

/-- Python `a < b` with a numeric left operand. -/
def pyNumLt (a : Rat) (aty : String) (rhs : JVal) : Except PyExc Bool :=
  match numRat rhs with
  | some r => .ok (a < r)
  | none => .error ⟨true, "'<' not supported between instances of '" ++ aty ++ "' and '" ++ typeName rhs ++ "'"⟩

/-- Python `a > b` with a numeric left operand. -/
def pyNumGt (a : Rat) (aty : String) (rhs : JVal) : Except PyExc Bool :=
  match numRat rhs with
  | some r => .ok (r < a)
  | none => .error ⟨true, "'>' not supported between instances of '" ++ aty ++ "' and '" ++ typeName rhs ++ "'"⟩

/-- The enum check (lines 370-374): the error it appends, or the exception
it raises. -/
def enumCheck (fieldName : String) (value : JVal) (fs : JDict) : Except PyExc (List String) :=
  match jget fs "enum" with
  | none => .ok []
  | some allowed =>
    match pyInContainer value allowed with
    | .error e => .error e
    | .ok isIn =>
      if !isIn then
        .ok ["Field '" ++ fieldName ++ "' must be one of: " ++ pyStr allowed ++ ", got: " ++ pyStr value]
      else .ok []

/-- The pattern check (lines 377-381). -/
def patternCheck (fieldName : String) (value : JVal) (fs : JDict) : Except PyExc (List String) :=
  match jget fs "pattern", value with
  | some pat, .str s =>
    match pat with
    | .str p =>
      match reMatch p s with
      | .error e => .error e
      | .ok m =>
        if !m then .ok ["Field '" ++ fieldName ++ "' must match pattern: " ++ p]
        else .ok []
    | _ => .error ⟨true, "first argument must be string or compiled pattern"⟩
  | _, _ => .ok []

/-- The numeric minimum check (lines 384-387). -/
def minimumCheck (fieldName : String) (value : JVal) (fs : JDict) : Except PyExc (List String) :=
  match numRat value, jget fs "minimum" with
  | some a, some mn =>
    match pyNumLt a (typeName value) mn with
    | .error e => .error e
    | .ok lt =>
      if lt then .ok ["Field '" ++ fieldName ++ "' must be >= " ++ pyStr mn]
      else .ok []
  | _, _ => .ok []

/-- The numeric maximum check (lines 389-391). -/
def maximumCheck (fieldName : String) (value : JVal) (fs : JDict) : Except PyExc (List String) :=
  match numRat value, jget fs "maximum" with
  | some a, some mx =>
    match pyNumGt a (typeName value) mx with
    | .error e => .error e
    | .ok gt =>
      if gt then .ok ["Field '" ++ fieldName ++ "' must be <= " ++ pyStr mx]
      else .ok []
  | _, _ => .ok []

/-- The string minLength check (lines 395-397). -/
def minLengthCheck (fieldName : String) (value : JVal) (fs : JDict) : Except PyExc (List String) :=
  match value, jget fs "minLength" with
  | .str s, some mn =>
    match pyNumLt (s.length : Rat) "int" mn with
    | .error e => .error e
    | .ok lt =>
      if lt then .ok ["Field '" ++ fieldName ++ "' must be at least " ++ pyStr mn ++ " characters"]
      else .ok []
  | _, _ => .ok []

/-- The string maxLength check (lines 399-401). -/
def maxLengthCheck (fieldName : String) (value : JVal) (fs : JDict) : Except PyExc (List String) :=
  match value, jget fs "maxLength" with
  | .str s, some mx =>
    match pyNumGt (s.length : Rat) "int" mx with
    | .error e => .error e
    | .ok gt =>
      if gt then .ok ["Field '" ++ fieldName ++ "' must be at most " ++ pyStr mx ++ " characters"]
      else .ok []
  | _, _ => .ok []

/-- The array minItems check (lines 405-407). -/
def minItemsCheck (fieldName : String) (value : JVal) (fs : JDict) : Except PyExc (List String) :=
  match value, jget fs "minItems" with
  | .arr xs, some mn =>
    match pyNumLt (xs.length : Rat) "int" mn with
    | .error e => .error e
    | .ok lt =>
      if lt then .ok ["Field '" ++ fieldName ++ "' must have at least " ++ pyStr mn ++ " items"]
      else .ok []
  | _, _ => .ok []

/-- The array maxItems check (lines 409-411). -/
def maxItemsCheck (fieldName : String) (value : JVal) (fs : JDict) : Except PyExc (List String) :=
  match value, jget fs "maxItems" with
  | .arr xs, some mx =>
    match pyNumGt (xs.length : Rat) "int" mx with
    | .error e => .error e
    | .ok gt =>
      if gt then .ok ["Field '" ++ fieldName ++ "' must have at most " ++ pyStr mx ++ " items"]
      else .ok []
  | _, _ => .ok []

/-- Run the constraint checks in source order, keeping the errors appended
to the mutable result before an exception: a raising check terminates the
sequence but the appends already made persist, exactly as the in-place
`result["errors"].append` mutations of `_validate_constraints` do. -/
def vcRun (acc : List String) : List (Except PyExc (List String)) → List String × Option PyExc
  | [] => (acc, none)
  | c :: cs =>
    match c with
    | .error e => (acc, some e)
    | .ok es => vcRun (acc ++ es) cs

/-- `SchemaValidator._validate_constraints`: returns the list of errors
appended to `result["errors"]` (the code sets `result["valid"] = False` at
exactly the appends, so the valid flag after the call is the flag before
it conjoined with this list being empty), together with the exception that
escaped the check, if any — errors appended before a mid-check exception
persist in the mutated result. -/
def validateConstraints (fieldName : String) (value : JVal) (fs : JDict) :
    List String × Option PyExc :=
  match value with
  | .null => ([], none)
  | _ =>
    vcRun []
      [enumCheck fieldName value fs, patternCheck fieldName value fs,
       minimumCheck fieldName value fs, maximumCheck fieldName value fs,
       minLengthCheck fieldName value fs, maxLengthCheck fieldName value fs,
       minItemsCheck fieldName value fs, maxItemsCheck fieldName value fs]

end SchemaConstraints

section SchemaValidatorCore
/-!  ### `schema_validator.py` — recursive validation

`_validate_object_recursive` / `_validate_field_recursive`, embedded as a
mutual recursion over the input document.  The nested-object handling of
`_validate_field_recursive` repeats the body of
`_validate_object_recursive` (in the source it is a call; here the call is
split so that each recursive call descends into a strict subterm of the
document).  -/

open PyEmbed

/-- Result dict of `_validate_object_recursive` / `validate_input`. -/
structure VResult where
  valid : Bool
  data : JDict
  errors : List String
  warnings : List String
deriving Repr

/-- Result dict of `_validate_field_recursive`. -/
structure FResult where
  valid : Bool
  value : JVal
  errors : List String
  warnings : List String
deriving Repr

/-- Mutable state of `_validate_object_recursive`'s field loop, plus the
loop variable `field_path` (assigned only for declared fields; the
defaults loop reads it afterwards). -/
structure OState where
  valid : Bool
  data : JDict
  errors : List String
  warnings : List String
  lastFieldPath : Option String
deriving Repr

/-- Mutable state of the array-of-objects item loop. -/
structure ItemState where
  valid : Bool
  items : List JVal
  errors : List String
  warnings : List String
deriving Repr

/-- `schema.get(key, default)` (`AttributeError` on a non-dict schema). -/
def pyAttrGetD (v : JVal) (key : String) (d : JVal) : Except PyExc JVal :=
  match v with
  | .obj kvs => .ok (jgetD kvs key d)
  | other => .error (attrError other "get")

/-- `v.get(key)` returning `None` for an absent key. -/
def pyAttrGetOpt (v : JVal) (key : String) : Except PyExc (Option JVal) :=
  match v with
  | .obj kvs => .ok (jget kvs key)
  | other => .error (attrError other "get")

/-- Python iteration (`for x in v`): lists yield elements, strings yield
characters, dicts yield keys; other values raise `TypeError`. -/
def pyIter (v : JVal) : Except PyExc (List JVal) :=
  match v with
  | .arr xs => .ok xs
  | .str s => .ok (s.toList.map (fun c => .str c.toString))
  | .obj kvs => .ok (kvs.map (fun kv => .str kv.1))
  | other => .error ⟨true, "'" ++ typeName other ++ "' object is not iterable"⟩

/-- The missing-required-field message emitted at line 119 of
`schema_validator.py`.  The conditional expression stands inside the
f-string literal, so only `{path}` and `{field}` are interpolated and the
text `' if path != 'root' else field` is emitted verbatim. -/
def missingFieldMsg (path : String) (f : JVal) : String :=
  "Missing required field: '" ++ path ++ "." ++ pyStr f ++ "' if path != 'root' else field"

/-- `Field '<path>': <exception>` (the broad handler at line 240-242). -/
def fieldErrMsg (fieldPath msg : String) : String :=
  "Field '" ++ fieldPath ++ "': " ++ msg

/-- The required-fields loop over a dict document: one missing-field error
per absent key (`field not in data` raises for unhashable keys). -/
def requiredErrors : List JVal → JDict → String → Except PyExc (List String)
  | [], _, _ => .ok []
  | f :: rest, kvs, path =>
    let headErrs : Except PyExc (List String) :=
      match f with
      | .str s => .ok (if jhas kvs s then [] else [missingFieldMsg path f])
      | .arr _ => .error ⟨true, "unhashable type: 'list'"⟩
      | .obj _ => .error ⟨true, "unhashable type: 'dict'"⟩
      | _ => .ok [missingFieldMsg path f]
    match headErrs with
    | .error e => .error e
    | .ok hs =>
      match requiredErrors rest kvs path with
      | .error e => .error e
      | .ok ts => .ok (hs ++ ts)

/-- The exception `_validate_object_recursive` raises on a non-dict
document: membership tests in the required loop raise first when they can,
otherwise `data.items()` raises `AttributeError`. -/
def nonDictRaise (data : JVal) (reqL : List JVal) : PyExc :=
  match data with
  | .str _ =>
    match reqL.find? (fun f => match f with | .str _ => false | _ => true) with
    | some f => ⟨true, "'in <string>' requires string as left operand, not " ++ typeName f⟩
    | none => attrError data "items"
  | .arr _ => attrError data "items"
  | _ =>
    if reqL.isEmpty then attrError data "items"
    else ⟨true, "argument of type '" ++ typeName data ++ "' is not iterable"⟩

/-- `field_name in properties` for the (usually dict) properties value. -/
def pyContainsKey (container : JVal) (k : String) : Except PyExc Bool :=
  match container with
  | .obj kvs => .ok (jhas kvs k)
  | .str s => .ok (substrB k s)
  | .arr xs => .ok (xs.any (fun y => pyEq (.str k) y))
  | other => .error ⟨true, "argument of type '" ++ typeName other ++ "' is not iterable"⟩

/-- `container[k]` with a string subscript. -/
def pySubscriptKey (container : JVal) (k : String) : Except PyExc JVal :=
  match container with
  | .obj kvs =>
    match jget kvs k with
    | some v => .ok v
    | none => .error ⟨false, "KeyError: '" ++ k ++ "'"⟩
  | .str _ => .error ⟨true, "string indices must be integers"⟩
  | .arr _ => .error ⟨true, "list indices must be integers or slices, not str"⟩
  | other => .error ⟨true, "'" ++ typeName other ++ "' object is not subscriptable"⟩

/-- The defaults loop of `_validate_object_recursive` (lines 141-146): the
default value is inserted raw, and the warning names the stale loop
variable `field_path` — unbound when no declared field was processed. -/
def defaultsLoop : List (String × JVal) → OState → Except PyExc OState
  | [], st => .ok st
  | (fname, fschema) :: rest, st =>
    if !jhas st.data fname then
      match pyContainsKey fschema "default" with
      | .error e => .error e
      | .ok hasDef =>
        if hasDef then
          match pySubscriptKey fschema "default" with
          | .error e => .error e
          | .ok dv =>
            match st.lastFieldPath with
            | none => .error ⟨false, "cannot access local variable 'field_path' where it is not associated with a value"⟩
            | some fp =>
              defaultsLoop rest ⟨st.valid, st.data ++ [(fname, dv)],
                st.errors, st.warnings ++ ["Applied default value for '" ++ fp ++ "': " ++ pyStr dv], st.lastFieldPath⟩
        else defaultsLoop rest st
    else defaultsLoop rest st

/-- `properties.items()` iteration of the defaults loop. -/
def applyDefaults (propsV : JVal) (st : OState) : Except PyExc OState :=
  match propsV with
  | .obj pkvs => defaultsLoop pkvs st
  | other => .error (attrError other "items")

/-- Lines 172-174: the attempted conversion of one union branch — skipped
(keeping the current `result["value"]`) when the original value is `None`. -/
def unionConvert (origValue : JVal) (t : JVal) (cur : JVal) : Except PyExc JVal :=
  match origValue with
  | .null => .ok cur
  | v => convertType v t

/-- Outcome of the union-type loop of `_validate_field_recursive`: the
mutated `result["value"]` and `result["errors"]`, plus the success
warning, the local `conversion_errors`, or the escaping exception. -/
inductive UnionOut where
  | success (v : JVal) (errs : List String) (warning : String) : UnionOut
  | exhausted (v : JVal) (errs convErrors : List String) : UnionOut
  | raised (v : JVal) (errs : List String) (e : PyExc) : UnionOut

/-- The union-type loop (lines 164-198) over the mutable `result` state
(`cur` = `result["value"]`, `valid` = `result["valid"]`, `errs` =
`result["errors"]`) and the local `conversion_errors`.  The else path of
lines 186-189 resets `errs`/`valid` for the next attempt, but the
`(ValueError, TypeError)` handler of lines 191-193 does not: errors
appended (and the valid flag cleared) by a constraint check that then
raised persist into the next iteration, so the next branch can be seen as
a constraint failure even when its own checks pass.  An exception outside
`(ValueError, TypeError)` escapes with the state accumulated so far. -/
def unionLoop (fieldName : String) (origValue : JVal) (fs : JDict) :
    List JVal → JVal → Bool → List String → List String → UnionOut
  | [], cur, _, errs, convErrs => .exhausted cur errs convErrs
  | t :: ts, cur, valid, errs, convErrs =>
    match unionConvert origValue t cur with
    | .error e =>
      if e.caught then
        unionLoop fieldName origValue fs ts cur valid errs
          (convErrs ++ ["Cannot convert to " ++ pyStr t ++ ": " ++ e.msg])
      else .raised cur errs e
    | .ok nv =>
      match validateConstraints fieldName nv (jset fs "type" t) with
      | (appended, some e) =>
        if e.caught then
          unionLoop fieldName origValue fs ts nv (valid && appended.isEmpty) (errs ++ appended)
            (convErrs ++ ["Cannot convert to " ++ pyStr t ++ ": " ++ e.msg])
        else .raised nv (errs ++ appended) e
      | (appended, none) =>
        if valid && appended.isEmpty then
          .success nv (errs ++ appended) ("Field '" ++ fieldName ++ "' validated as " ++ pyStr t)
        else
          unionLoop fieldName origValue fs ts nv true []
            (convErrs ++ ["Type " ++ pyStr t ++ " failed constraints: " ++ pyReprStrList (errs ++ appended)])

/-- The aggregate error of line 198, listing the per-branch failures. -/
def unionAggregateMsg (fieldName : String) (value : JVal) (ts : List JVal)
    (convErrors : List String) : String :=
  "Field '" ++ fieldName ++ "': Value '" ++ pyStr value ++
    "' doesn't match any allowed types " ++ pyStr (.arr ts) ++ ". Errors: " ++ pyReprStrList convErrors

/-- The field result assembled from the union loop (lines 181-200 plus the
enclosing handler, which appends to the errors accumulated in `result`). -/
def unionResult (fieldName : String) (value : JVal) (fs : JDict) (ts : List JVal)
    (fieldPath : String) : FResult :=
  match unionLoop fieldName value fs ts value true [] [] with
  | .success v errs w => ⟨true, v, errs, [w]⟩
  | .exhausted v errs convErrs =>
    ⟨false, v, errs ++ [unionAggregateMsg fieldName value ts convErrs], []⟩
  | .raised v errs e => ⟨false, v, errs ++ [fieldErrMsg fieldPath e.msg], []⟩

mutual
/-- `_validate_object_recursive(data, schema, path)`: schema gets, required
check, field loop, defaults; non-dict data raises. -/
def vObjFull (data : JVal) (schema : JVal) (path : String) : Except PyExc VResult :=
  match pyAttrGetD schema "properties" (.obj []) with
  | .error e => .error e
  | .ok propsV =>
    match pyAttrGetD schema "required" (.arr []) with
    | .error e => .error e
    | .ok reqV =>
      match pyIter reqV with
      | .error e => .error e
      | .ok reqL =>
        match data with
        | .obj kvs =>
          match requiredErrors reqL kvs path with
          | .error e => .error e
          | .ok reqErrs =>
            match vFieldsLoop kvs propsV path ⟨reqErrs.isEmpty, [], reqErrs, [], none⟩ with
            | .error e => .error e
            | .ok st1 =>
              match applyDefaults propsV st1 with
              | .error e => .error e
              | .ok st2 => .ok ⟨st2.valid, st2.data, st2.errors, st2.warnings⟩
        | other => .error (nonDictRaise other reqL)
  termination_by structural data

/-- The `for field_name, field_value in data.items()` loop (lines 122-139). -/
def vFieldsLoop (entries : List (String × JVal)) (propsV : JVal) (path : String)
    (st : OState) : Except PyExc OState :=
  match entries with
  | [] => .ok st
  | (k, v) :: rest =>
    match pyContainsKey propsV k with
    | .error e => .error e
    | .ok inProps =>
      if !inProps then
        vFieldsLoop rest propsV path ⟨st.valid, st.data ++ [(k, v)], st.errors,
          st.warnings ++ ["Unknown field '" ++ path ++ "." ++ k ++ "' - will be passed through"],
          st.lastFieldPath⟩
      else
        match pySubscriptKey propsV k with
        | .error e => .error e
        | .ok fschema =>
          let fp := if path ≠ "root" then path ++ "." ++ k else k
          let fr := vFieldRec k v fschema fp
          if fr.valid then
            vFieldsLoop rest propsV path ⟨st.valid, st.data ++ [(k, fr.value)], st.errors,
              st.warnings ++ fr.warnings, some fp⟩
          else
            vFieldsLoop rest propsV path ⟨false, st.data, st.errors ++ fr.errors,
              st.warnings, some fp⟩
  termination_by structural entries

/-- `_validate_field_recursive(field_name, value, field_schema, field_path)`. -/
def vFieldRec (fieldName : String) (value : JVal) (fieldSchemaJ : JVal) (fieldPath : String) : FResult :=
  match fieldSchemaJ with
  | .obj fs =>
    match jgetD fs "type" (.str "string") with
    | .arr ts => unionResult fieldName value fs ts fieldPath
    | ftv =>
      match value, pyEq ftv (.str "object"), pyEq ftv (.str "array") with
      | .obj kvs, true, _ =>
        -- nested dict: `_validate_object_recursive(value, field_schema, field_path)`
        -- under the broad handler of lines 240-242
        let propsV := jgetD fs "properties" (.obj [])
        let reqV := jgetD fs "required" (.arr [])
        match pyIter reqV with
        | .error e => ⟨false, .obj kvs, [fieldErrMsg fieldPath e.msg], []⟩
        | .ok reqL =>
          match requiredErrors reqL kvs fieldPath with
          | .error e => ⟨false, .obj kvs, [fieldErrMsg fieldPath e.msg], []⟩
          | .ok reqErrs =>
            match vFieldsLoop kvs propsV fieldPath ⟨reqErrs.isEmpty, [], reqErrs, [], none⟩ with
            | .error e => ⟨false, .obj kvs, [fieldErrMsg fieldPath e.msg], []⟩
            | .ok st1 =>
              match applyDefaults propsV st1 with
              | .error e => ⟨false, .obj kvs, [fieldErrMsg fieldPath e.msg], []⟩
              | .ok st2 => ⟨st2.valid, .obj st2.data, st2.errors, st2.warnings⟩
      | .arr xs, _, true =>
        let itemsV := jgetD fs "items" (.obj [])
        match pyAttrGetOpt itemsV "type" with
        | .error e => ⟨false, .arr xs, [fieldErrMsg fieldPath e.msg], []⟩
        | .ok tOpt =>
          if (match tOpt with | some t => pyEq t (.str "object") | none => false) then
            match vItemsLoop xs itemsV fieldPath 0 ⟨true, [], [], []⟩ with
            | .error (st, e) => ⟨false, .arr xs, st.errors ++ [fieldErrMsg fieldPath e.msg], st.warnings⟩
            | .ok st => ⟨st.valid, if st.valid then .arr st.items else .arr xs, st.errors, st.warnings⟩
          else ⟨true, .arr xs, [], []⟩
      | v, _, _ =>
        match v with
        | .null => ⟨true, .null, [], []⟩
        | _ =>
          match convertType v ftv with
          | .error e => ⟨false, v, [fieldErrMsg fieldPath e.msg], []⟩
          | .ok cv =>
            match validateConstraints fieldName cv fs with
            | (appended, some e) => ⟨false, cv, appended ++ [fieldErrMsg fieldPath e.msg], []⟩
            | (appended, none) => ⟨appended.isEmpty, cv, appended, []⟩
  | other => ⟨false, value, [fieldErrMsg fieldPath ("'" ++ typeName other ++ "' object has no attribute 'get'")], []⟩
  termination_by structural value

/-- The array-of-objects item loop (lines 215-223); an exception escapes
with the state accumulated so far. -/
def vItemsLoop (items : List JVal) (itemSchema : JVal) (fieldPath : String) (i : Nat)
    (st : ItemState) : Except (ItemState × PyExc) ItemState :=
  match items with
  | [] => .ok st
  | x :: rest =>
    match vObjFull x itemSchema (fieldPath ++ "[" ++ toString i ++ "]") with
    | .error e => .error (st, e)
    | .ok ir =>
      if ir.valid then
        vItemsLoop rest itemSchema fieldPath (i + 1)
          ⟨st.valid, st.items ++ [.obj ir.data], st.errors, st.warnings ++ ir.warnings⟩
      else
        vItemsLoop rest itemSchema fieldPath (i + 1)
          ⟨false, st.items, st.errors ++ ir.errors, st.warnings⟩
  termination_by structural items
end

/-- `len(properties)`. -/
def pyLen (v : JVal) : Except PyExc Nat :=
  match v with
  | .str s => .ok s.length
  | .arr xs => .ok xs.length
  | .obj kvs => .ok kvs.length
  | other => .error ⟨true, "object of type '" ++ typeName other ++ "' has no len()"⟩

/-- `list(v.keys())`. -/
def pyKeys (v : JVal) : Except PyExc (List String) :=
  match v with
  | .obj kvs => .ok (kvs.map Prod.fst)
  | other => .error (attrError other "keys")

/-- `SchemaValidator._normalize_schema`: a single typeless wrapper property
with at least one typed child becomes the normalised schema (tagged with
`_wrapper_key`); anything else is returned unchanged. -/
def normalizeSchema (inputSchema : JVal) : Except PyExc JDict :=
  match inputSchema with
  | .obj skvs =>
    let propsV := jgetD skvs "properties" (.obj [])
    match pyLen propsV with
    | .error e => .error e
    | .ok n =>
      if n = 1 then
        match pyKeys propsV with
        | .error e => .error e
        | .ok keys =>
          match keys, propsV with
          | [wrapperKey], .obj pkvs =>
            match jget pkvs wrapperKey with
            | some (.obj wkvs) =>
              if !pyTruthyOpt (jget wkvs "type") &&
                 wkvs.any (fun kv =>
                   match kv.2 with
                   | .obj vkvs => pyTruthyOpt (jget vkvs "type")
                   | _ => false) then
                .ok [("type", .str "object"), ("properties", .obj wkvs),
                     ("required", jgetD skvs "required" (.arr [])),
                     ("_wrapper_key", .str wrapperKey)]
              else .ok skvs
            | _ => .ok skvs
          | _, _ => .ok skvs
      else .ok skvs
  | other => .error (attrError other "get")

/-- The body of `validate_input` inside its `try` (lines 53-92). -/
def validateBody (userInput : JDict) (inputSchema : JVal) : Except PyExc VResult :=
  match normalizeSchema inputSchema with
  | .error e => .error e
  | .ok normalized =>
    let wrapperKeyOpt := jget normalized "_wrapper_key"
    let useWrapper := pyTruthyOpt wrapperKeyOpt
    let validationData : JVal :=
      if useWrapper then
        match wrapperKeyOpt with
        | some (.str k) => if jhas userInput k then jgetD userInput k .null else .obj userInput
        | _ => .obj userInput
      else .obj userInput
    if !pyTruthyOpt (jget normalized "properties") then
      .ok ⟨true, userInput, [], ["No properties to validate"]⟩
    else
      match vObjFull validationData (.obj normalized) "root" with
      | .error e => .error e
      | .ok r =>
        if useWrapper && r.valid then
          match wrapperKeyOpt with
          | some (.str k) => .ok ⟨r.valid, [(k, .obj r.data)], r.errors, r.warnings⟩
          | _ => .ok r
        else .ok r

/-- `SchemaValidator.validate_input`: the `try` body, with every exception
turned into the `Validation error:` envelope of lines 94-101. -/
def validateInput (userInput : JDict) (inputSchema : JVal) : VResult :=
  match validateBody userInput inputSchema with
  | .ok r => r
  | .error e => ⟨false, [], ["Validation error: " ++ e.msg], []⟩

end SchemaValidatorCore

section GithubDownloader
/-!  ### `github_downloader.py` — `download_tool_from_github`

External effects (GitHub connection, content fetch, directory listing) are
parameters; the embedding reproduces what the function does with them. -/

/-- The result dict of `download_tool_from_github`. -/
inductive DownloadRes where
  | success (tool_name : String) (file_path : String) (file_size : Nat) (filename : String) : DownloadRes
  | error (message : String) : DownloadRes
deriving Repr, DecidableEq

/-- The `message` field of a download result (`""` on success, which has
no `message` key). -/
def ghMessage : DownloadRes → String
  | .success _ _ _ _ => ""
  | .error m => m

/-- Error message of the 404 branch (line 108). -/
def toolNotFoundMessage (toolName : String) : String :=
  "Tool '" ++ toolName ++ ".py' not found in repository!"

/-- Line 117: available tools whose case-folded name is in a substring
relation with the requested name. -/
def similarTools (toolName : String) (available : List String) : List String :=
  available.filter (fun t =>
    substrB (pyLower toolName) (pyLower t) || substrB (pyLower t) (pyLower toolName))

/-- A download call's observable outcome: the returned dict plus the
suggestion names the 404 branch computes and logs (lines 113-124) —
logging is their only use. -/
structure GhDownload where
  result : DownloadRes
  loggedSuggestions : List String
deriving Repr, DecidableEq

/-- `download_tool_from_github(tool_name, target_dir)` given the outcomes
of the external calls: connecting, fetching `Tools/<name>.py` (its size on
success, `str(e)` on failure), and listing `Tools/`. -/
def downloadToolFromGithub (toolName targetDir : String)
    (connect : Except String Unit) (fetch : Except String Nat)
    (listing : Except String (List String)) : GhDownload :=
  match connect with
  | .error m => ⟨.error ("Error connecting to GitHub: " ++ m), []⟩
  | .ok _ =>
    match fetch with
    | .ok size =>
      ⟨.success toolName (targetDir ++ "/" ++ toolName ++ ".py") size (toolName ++ ".py"), []⟩
    | .error e =>
      if substrB "404" e then
        let sugg := match listing with
          | .ok files =>
            let available := (files.filter (fun f => endsWithPy f ".py")).map (fun f => replaceStr f ".py" "")
            (similarTools toolName available).take 5
          | .error _ => []
        ⟨.error (toolNotFoundMessage toolName), sugg⟩
      else ⟨.error ("Error downloading tool: " ++ e), []⟩

end GithubDownloader

section SandboxManager
/-!  ### `virtual_env_manager.py` — `cleanup_environment`  -/

/-- Outcome of `cleanup_environment`: no-op (falsy or non-existing path),
removal within the three `rmtree` attempts, or `atexit` registration of a
deferred best-effort removal after all three fail. -/
inductive CleanupRes where
  | noop : CleanupRes
  | removed : CleanupRes
  | deferredRegistered : CleanupRes
deriving Repr, DecidableEq

/-- `cleanup_environment(temp_base_dir)` given the directory's truthiness
and existence and the success of each of the three removal attempts. -/
def cleanupEnvironment (dirTruthy dirExists : Bool) (a1 a2 a3 : Bool) : CleanupRes :=
  if !dirTruthy || !dirExists then .noop
  else if a1 then .removed
  else if a2 then .removed
  else if a3 then .removed
  else .deferredRegistered

/-- After cleanup, does the directory still exist with nothing scheduled to
remove it?  (`deferredRegistered` leaves it on disk but registered.) -/
def cleanupLeavesUntracked : CleanupRes → Bool
  | .noop => false
  | .removed => false
  | .deferredRegistered => false

end SandboxManager

section ToolExecutorPipeline
/-!  ### `tool_executor.py` — `execute_tool` and the launch timeout

The pipeline's external steps (database lookup, sandbox creation,
blueprint staging, download, dependency install, child-process launch) are
parameters carrying the outcome the external world would supply; an
`Except.error` models an exception raised inside the step.  Validation
(step 2) and dependency extraction (step 6) run the embedded functions. -/

/-- The sandbox paths dict built by `create_isolated_environment`. -/
structure EnvInfo where
  temp_base_dir : String
  venv_dir : String
  python_path : String
  pip_path : String
  scripts_dir : String
  tools_dir : String
  temp_files_dir : String
  working_dir : String
  tool_name : String
deriving Repr, DecidableEq

/-- A tool descriptor from the metadata store. -/
structure ToolDetails where
  description : String
  input_schema : JVal

/-- Result dict of `_setup_blueprint_structure`. -/
structure BlueprintResult where
  success : Bool
  message : String
deriving Repr, DecidableEq

/-- Result dict of `_install_dependencies`. -/
structure InstallResult where
  success : Bool
  installed : List String
  failed : List String
  errors : List String
  message : String
deriving Repr, DecidableEq

/-- Result dict of `_execute_tool_in_environment` (output streams are not
modelled; no claim reads them). -/
inductive ExecRes where
  | success (result : JVal) : ExecRes
  | error (message : String) : ExecRes

/-- An exception raised inside a pipeline step (class name and message). -/
structure PyRaise where
  ty : String
  msg : String
deriving Repr, DecidableEq

/-- The `details` dict of `_error_response`, one shape per call site. -/
inductive ErrDetails where
  | empty : ErrDetails
  | validationErrors (errs : List String) : ErrDetails
  | blueprintError (r : BlueprintResult) : ErrDetails
  | downloadError (r : DownloadRes) : ErrDetails
  | dependencyErrors (errs : List String) : ErrDetails
  | executionError (msg : String) : ErrDetails
  | exceptionType (name : String) : ErrDetails
deriving Repr, DecidableEq

/-- The `execution_info` of a success envelope (timings not modelled). -/
structure ExecInfo where
  validated_input : JDict
  dependencies_installed : List String
  validation_warnings : List String
  environment_path : String
  tool_file_size : Nat

/-- The uniform result envelope of `execute_tool`. -/
inductive Response where
  | success (tool_name : String) (result : JVal) (info : ExecInfo) (message : String) : Response
  | error (message : String) (details : ErrDetails) : Response

/-- `_error_response(message, details)` (timestamp not modelled). -/
def errorResponse (message : String) (details : ErrDetails) : Response :=
  .error message details

/-- The `message` of an envelope. -/
def responseMessage : Response → String
  | .success _ _ _ m => m
  | .error m _ => m

/-- Outcomes of the pipeline's external steps.  `findDeps` is the outcome
of locating the `dependencies` variable in the downloaded file (step 6
feeds it to the embedded extractor). -/
structure PipelineOutcomes where
  toolDetails : Except PyRaise (Option ToolDetails)
  envCreate : Except PyRaise EnvInfo
  blueprint : Except PyRaise BlueprintResult
  download : Except PyRaise DownloadRes
  findDeps : ExtractOutcome
  install : Except PyRaise InstallResult
  execution : Except PyRaise ExecRes

/-- Steps 4-8 of `execute_tool`, entered after the sandbox exists. -/
def afterEnv (toolName : String) (vr : VResult) (env : EnvInfo) (o : PipelineOutcomes) :
    Except PyRaise Response :=
  match o.blueprint with
  | .error r => .error r
  | .ok b =>
    if !b.success then
      .ok (errorResponse ("Blueprint setup failed: " ++ b.message) (.blueprintError b))
    else
      match o.download with
      | .error r => .error r
      | .ok d =>
        match d with
        | .error dmsg => .ok (errorResponse ("Tool download failed: " ++ dmsg) (.downloadError d))
        | .success _ _ fileSize _ =>
          let deps := extractDependenciesFromFile o.findDeps
          let installGate : Except PyRaise (Option Response) :=
            if !deps.isEmpty then
              match o.install with
              | .error r => .error r
              | .ok ir =>
                if !ir.success then
                  .ok (some (errorResponse ("Dependency installation failed: " ++ ir.message)
                    (.dependencyErrors ir.errors)))
                else .ok none
            else .ok none
          match installGate with
          | .error r => .error r
          | .ok (some resp) => .ok resp
          | .ok none =>
            match o.execution with
            | .error r => .error r
            | .ok er =>
              match er with
              | .error emsg =>
                .ok (errorResponse ("Tool execution failed: " ++ emsg) (.executionError emsg))
              | .success res =>
                .ok (.success toolName res
                  ⟨vr.data, deps, vr.warnings, env.temp_base_dir, fileSize⟩
                  ("Tool '" ++ toolName ++ "' executed successfully"))

/-- The `try` body of `execute_tool` (steps 1-8): the response (or the
exception the `except` clause will catch) plus the value of `env_info`
when the body exits — `none` before step 3 assigns it. -/
def pipelineBody (toolName : String) (userInput : JDict) (o : PipelineOutcomes) :
    Except PyRaise Response × Option EnvInfo :=
  match o.toolDetails with
  | .error r => (.error r, none)
  | .ok none => (.ok (errorResponse ("Tool '" ++ toolName ++ "' not found in database") .empty), none)
  | .ok (some td) =>
    let vr := validateInput userInput td.input_schema
    if !vr.valid then
      (.ok (errorResponse ("Input validation failed: " ++ pyReprStrList vr.errors)
        (.validationErrors vr.errors)), none)
    else
      match o.envCreate with
      | .error r => (.error r, none)
      | .ok env => (afterEnv toolName vr env o, some env)

/-- A completed `execute_tool` call: the returned envelope, and the
directory the `finally` clause passed to `cleanup_environment` (`none`
when no sandbox had been created). -/
structure RunResult where
  response : Response
  cleanupTarget : Option String

/-- `execute_tool(tool_name, user_input)`: the `try` body, the `except`
clause turning an exception into the `Critical execution error` envelope,
and the `finally` clause invoking cleanup whenever `env_info` is set. -/
def executeToolRun (toolName : String) (userInput : JDict) (o : PipelineOutcomes) : RunResult :=
  let br := pipelineBody toolName userInput o
  let resp := match br.1 with
    | .ok resp => resp
    | .error pr => errorResponse ("Critical execution error: " ++ pr.msg) (.exceptionType pr.ty)
  ⟨resp, br.2.map EnvInfo.temp_base_dir⟩

/-- Per-package install timeout passed to `subprocess.run` at line 275 of
`tool_executor.py` (the adjacent comment says "5 minute timeout per
package"; the value is in seconds). -/
def installTimeoutSeconds : Nat := 30000

/-- Launch wall-clock timeout passed to `subprocess.run` at line 328 of
`tool_executor.py` (the adjacent comment says "5 minute timeout"). -/
def executionTimeoutSeconds : Nat := 30000

/-- The message of the `TimeoutExpired` branch (lines 379-383). -/
def executionTimeoutMessage : String := "Tool execution timeout (5 minutes)"

/-- Whether `subprocess.run` kills the launched child: only when the
elapsed wall-clock seconds exceed the configured timeout. -/
def launchKilled (elapsedSeconds : Nat) : Bool :=
  executionTimeoutSeconds < elapsedSeconds

/-- The result dict `_execute_tool_in_environment` returns on expiry. -/
def launchTimeoutResult : ExecRes := .error executionTimeoutMessage

end ToolExecutorPipeline

section ClaimFixtures
/-!  ### Spec-side definitions and concrete fixtures used by the claims  -/

open PyEmbed

/-- Modelled from the spec: a union branch "wins" when the coercion of the
value to the candidate type succeeds and the resulting value passes every
constraint of the field schema specialised to that type (§4.4(c)). -/
def specUnionWins (fieldName : String) (value : JVal) (fs : JDict) (t : JVal) : Bool :=
  match unionConvert value t value with
  | .ok cv =>
    match validateConstraints fieldName cv (jset fs "type" t) with
    | (appended, none) => appended.isEmpty
    | (_, some _) => false
  | .error _ => false

/-- Modelled from the spec: the inner schema of a single-key wrapper — the
wrapper's child dict as `properties`, with the outer schema's `required`
(this is exactly the normalised schema minus the `_wrapper_key` tag). -/
def innerSchemaOf (skvs : JDict) (wkvs : JDict) : JVal :=
  .obj [("type", .str "object"), ("properties", .obj wkvs),
        ("required", jgetD skvs "required" (.arr []))]

/-- Modelled from the spec: `wrap(result)` — on success re-wrap the data
under the wrapper key, otherwise return the result unchanged (§4.4(a)). -/
def wrapR (k : String) (r : VResult) : VResult :=
  if r.valid then ⟨r.valid, [(k, .obj r.data)], r.errors, r.warnings⟩ else r

/-- The schema of end-to-end scenario 2 of the spec (`naics_code`
required). -/
def naicsInputSchema : JVal :=
  .obj [("properties", .obj [("naics_code", .obj [("type", .str "string")])]),
        ("required", .arr [.str "naics_code"])]

/-- The message line 119 of `schema_validator.py` actually produces for a
missing `naics_code` at the top level. -/
def naicsGarbledMsg : String :=
  "Missing required field: 'root.naics_code' if path != 'root' else field"

/-- A union field schema whose first branch appends an enum error and then
raises a caught `TypeError` (the non-string pattern) during the constraint
checks — the state the except path of lines 191-193 fails to reset. -/
def poisonedIdFieldSchema : JDict :=
  [("type", .arr [.str "string", .str "integer"]), ("enum", .arr [.int 5]),
   ("pattern", .int 123)]

/-- The input schema around `poisonedIdFieldSchema`. -/
def poisonedUnionSchema : JVal :=
  .obj [("properties", .obj [("id", .obj poisonedIdFieldSchema)])]

/-- A two-field schema that coerces both fields to integers. -/
def twoIntSchema : JVal :=
  .obj [("properties", .obj [("a", .obj [("type", .str "integer")]),
                             ("b", .obj [("type", .str "integer")])])]

/-- A schema with a defaulted optional field (triggers the stale
`field_path` read of line 146 on an empty document). -/
def defaultedSchema : JVal :=
  .obj [("properties", .obj [("a", .obj [("type", .str "string"), ("default", .str "z")])])]

/-- A wrapper schema whose single wrapper key is the empty string. -/
def emptyKeyWrapperSkvs : JDict :=
  [("properties", .obj [("", .obj [("a", .obj [("type", .str "string")])])])]

/-- The wrapper body of `emptyKeyWrapperSkvs`. -/
def emptyKeyWrapperWkvs : JDict := [("a", .obj [("type", .str "string")])]

/-- The wrapper body of a concrete single-key wrapper schema. -/
def roundtripWkvs : JDict := [("naics_code", .obj [("type", .str "string")])]

/-- A concrete single-key wrapper schema over `roundtripWkvs`. -/
def roundtripSkvs : JDict := [("properties", .obj [("submission_data", .obj roundtripWkvs)])]

/-- A concrete inner document for the wrapper round trip. -/
def roundtripDoc : JDict := [("naics_code", .str "54")]

/-- A sandbox-paths record as `create_isolated_environment` would return. -/
def sampleEnvInfo : EnvInfo :=
  ⟨"/tmp/isolated_tool_T_1", "/tmp/isolated_tool_T_1/tool_venv",
   "/tmp/isolated_tool_T_1/tool_venv/bin/python", "/tmp/isolated_tool_T_1/tool_venv/bin/pip",
   "/tmp/isolated_tool_T_1/scripts", "/tmp/isolated_tool_T_1/tools",
   "/tmp/isolated_tool_T_1/temp_files", "/tmp/isolated_tool_T_1", "T"⟩

/-- Step outcomes for a fully successful pipeline run of a tool with an
empty input schema and no dependencies. -/
def happyOutcomes : PipelineOutcomes :=
  ⟨.ok (some ⟨"a sample tool", .obj []⟩), .ok sampleEnvInfo,
   .ok ⟨true, "Blueprint structure created successfully"⟩,
   .ok (.success "T" "/tmp/isolated_tool_T_1/tools/T.py" 10 "T.py"),
   .noVariable, .ok ⟨true, [], [], [], "All 0 dependencies installed successfully"⟩,
   .ok (.success (.obj [("status", .str "success")]))⟩

/-- Step outcomes whose metadata lookup finds a tool carrying the
`naics_code` schema (the later steps are never reached on invalid input). -/
def naicsOutcomes : PipelineOutcomes :=
  ⟨.ok (some ⟨"NAICS lookup", naicsInputSchema⟩), .error ⟨"Exception", "unreached"⟩,
   .error ⟨"Exception", "unreached"⟩, .error ⟨"Exception", "unreached"⟩,
   .noVariable, .error ⟨"Exception", "unreached"⟩, .error ⟨"Exception", "unreached"⟩⟩

end ClaimFixtures

section HelperLemmas
/-!  ### Helper lemmas: string order, sortedness, accumulator folds  -/

theorem charListLe_iff (as bs : List Char) : charListLe as bs = true ↔ ¬ List.Lex (· < ·) bs as := by
  induction as generalizing bs with
  | nil =>
    cases bs with
    | nil =>
      simp only [charListLe, true_iff]
      intro h; cases h
    | cons b bs =>
      simp only [charListLe, true_iff]
      intro h; cases h
  | cons a as ih =>
    cases bs with
    | nil =>
      simp only [charListLe, Bool.false_eq_true, false_iff, not_not]
      exact List.Lex.nil
    | cons b bs =>
      simp only [charListLe]
      by_cases hab : a < b
      · simp only [hab, if_true, true_iff]
        intro h
        cases h with
        | cons h2 => exact absurd hab (lt_irrefl a)
        | rel h2 => exact absurd hab (asymm h2)
      · by_cases hba : b < a
        · simp only [hab, if_false, hba, if_true, Bool.false_eq_true, false_iff, not_not]
          exact List.Lex.rel hba
        · have heq : a = b := le_antisymm (not_lt.mp hba) (not_lt.mp hab)
          subst heq
          simp only [hab, if_false, lt_irrefl, ih]
          constructor
          · intro h hlt
            cases hlt with
            | cons h3 => exact h h3
            | rel h3 => exact absurd h3 (lt_irrefl a)
          · intro h hlt
            exact h (List.Lex.cons hlt)

theorem strLeB_iff (a b : String) : strLeB a b = true ↔ a ≤ b := by
  rw [strLeB, charListLe_iff, String.le_iff_toList_le]
  have h2 : (b.toList < a.toList) = List.Lex (· < ·) b.toList a.toList := rfl
  rw [← not_lt, h2]

theorem pySorted_sorted (l : List String) : List.Sorted (· ≤ ·) (pySorted l) := by
  have h := @List.sorted_insertionSort String (fun a b => strLeB a b = true)
    (fun a b => instDecidableEqBool _ _)
    ⟨fun a b => by
      rcases le_total a b with h | h
      · exact .inl ((strLeB_iff a b).mpr h)
      · exact .inr ((strLeB_iff b a).mpr h)⟩
    ⟨fun a b c hab hbc => (strLeB_iff a c).mpr (le_trans ((strLeB_iff a b).mp hab) ((strLeB_iff b c).mp hbc))⟩ l
  exact h.imp (fun hx => (strLeB_iff _ _).mp hx)

theorem pySorted_perm (l : List String) : (pySorted l).Perm l :=
  List.perm_insertionSort _ l

theorem pySorted_nodup {l : List String} (h : l.Nodup) : (pySorted l).Nodup :=
  ((pySorted_perm l).symm.nodup h)

theorem mem_pySorted {l : List String} {s : String} : s ∈ pySorted l ↔ s ∈ l :=
  (pySorted_perm l).mem_iff

/- ### clean-name lemmas -/

theorem aliasApply_idem (x : String) : aliasApply (aliasApply x) = aliasApply x := by
  cases h : packageMappings.find? (fun kv => kv.1 = x) with
  | none =>
    have h2 : aliasApply x = x := by simp only [aliasApply, h]
    rw [h2]
    exact h2
  | some kv =>
    have h2 : aliasApply x = kv.2 := by simp only [aliasApply, h]
    have hmem := List.mem_of_find?_eq_some h
    rw [h2]
    simp only [packageMappings, List.mem_cons, List.not_mem_nil, or_false] at hmem
    rcases hmem with rfl | rfl | rfl | rfl | rfl <;> rfl

theorem aliasApply_ne_cv2 (x : String) : aliasApply x ≠ "cv2" := by
  cases h : packageMappings.find? (fun kv => kv.1 = x) with
  | none =>
    have h2 : aliasApply x = x := by simp only [aliasApply, h]
    rw [h2]
    intro hx
    subst hx
    simp [packageMappings, List.find?] at h
  | some kv =>
    have h2 : aliasApply x = kv.2 := by simp only [aliasApply, h]
    have hmem := List.mem_of_find?_eq_some h
    rw [h2]
    simp only [packageMappings, List.mem_cons, List.not_mem_nil, or_false] at hmem
    rcases hmem with rfl | rfl | rfl | rfl | rfl <;> simp

theorem cleanPackageName_spec (s : String) (h : cleanPackageName s ≠ "") :
    validPackageName (cleanPackageName s) = true ∧
    aliasApply (cleanPackageName s) = cleanPackageName s ∧
    cleanPackageName s ≠ "cv2" := by
  by_cases h1 : s = ""
  · exact absurd (by simp only [cleanPackageName, h1, if_true]) h
  · by_cases h2 : pyStrip (stripQuotes (pyStrip s)) = ""
    · exact absurd (by simp only [cleanPackageName, h1, if_false, h2, if_true]) h
    · have hungry : cleanPackageName s =
          (if validPackageName (aliasApply (pyStrip (String.mk (subSpec (pyStrip (stripQuotes (pyStrip s))).toList))))
           then aliasApply (pyStrip (String.mk (subSpec (pyStrip (stripQuotes (pyStrip s))).toList)))
           else "") := by
        simp only [cleanPackageName, h1, if_false, h2]
      by_cases h3 : validPackageName (aliasApply (pyStrip (String.mk (subSpec (pyStrip (stripQuotes (pyStrip s))).toList))))
      · rw [hungry, if_pos h3]
        exact ⟨h3, aliasApply_idem _, aliasApply_ne_cv2 _⟩
      · exact absurd (by rw [hungry, if_neg h3]) h



theorem mem_insertUnique {acc : List String} {x s : String} :
    s ∈ insertUnique acc x ↔ s ∈ acc ∨ s = x := by
  rw [insertUnique]
  by_cases h : x ∈ acc
  · simp only [h, if_true]
    constructor
    · exact .inl
    · intro h2
      rcases h2 with h2 | rfl
      · exact h2
      · exact h
  · simp [h]

theorem nodup_insertUnique {acc : List String} (x : String) (h : acc.Nodup) :
    (insertUnique acc x).Nodup := by
  rw [insertUnique]
  by_cases hx : x ∈ acc
  · simpa [hx]
  · simp only [hx, if_false]
    simp [List.nodup_append, h, hx]

theorem mem_foldl_insertUnique (l : List String) (acc : List String) (s : String) :
    s ∈ l.foldl insertUnique acc ↔ s ∈ acc ∨ s ∈ l := by
  induction l generalizing acc with
  | nil => simp
  | cons x xs ih =>
    simp only [List.foldl_cons, ih, mem_insertUnique, List.mem_cons]
    tauto

theorem nodup_foldl_insertUnique (l : List String) (acc : List String) (h : acc.Nodup) :
    (l.foldl insertUnique acc).Nodup := by
  induction l generalizing acc with
  | nil => simpa
  | cons x xs ih => exact ih _ (nodup_insertUnique x h)

theorem mem_itemsFold (xs : List PyVal) (acc : List String) (s : String) :
    s ∈ xs.foldl (fun acc item => (processDependencyItem item).foldl insertUnique acc) acc ↔
      s ∈ acc ∨ ∃ item, item ∈ xs ∧ s ∈ processDependencyItem item := by
  induction xs generalizing acc with
  | nil => simp
  | cons x xs ih =>
    simp only [List.foldl_cons, ih, mem_foldl_insertUnique, List.mem_cons]
    constructor
    · rintro ((h | h) | ⟨item, hmem, hin⟩)
      · exact .inl h
      · exact .inr ⟨x, .inl rfl, h⟩
      · exact .inr ⟨item, .inr hmem, hin⟩
    · rintro (h | ⟨item, (rfl | hmem), hin⟩)
      · exact .inl (.inl h)
      · exact .inl (.inr hin)
      · exact .inr ⟨item, hmem, hin⟩

theorem nodup_itemsFold (xs : List PyVal) (acc : List String) (h : acc.Nodup) :
    (xs.foldl (fun acc item => (processDependencyItem item).foldl insertUnique acc) acc).Nodup := by
  induction xs generalizing acc with
  | nil => simpa
  | cons x xs ih => exact ih _ (nodup_foldl_insertUnique _ _ h)

theorem mem_subFold (xs : List PyVal) (acc : List String) (s : String)
    (h : s ∈ xs.foldl (fun acc sub =>
      match sub with
      | .str t => let p := cleanPackageName t; if p ≠ "" then acc ++ [p] else acc
      | _ => acc) acc) :
    s ∈ acc ∨ (s ≠ "" ∧ ∃ q, s = cleanPackageName q) := by
  induction xs generalizing acc with
  | nil => exact .inl h
  | cons x xs ih =>
    rcases ih _ h with h2 | h2
    · match x with
      | .str t =>
        have h3 : s ∈ (if cleanPackageName t ≠ "" then acc ++ [cleanPackageName t] else acc) := h2
        by_cases hp : cleanPackageName t ≠ ""
        · rw [if_pos hp] at h3
          simp only [List.mem_append, List.mem_singleton] at h3
          rcases h3 with h3 | rfl
          · exact .inl h3
          · exact .inr ⟨hp, t, rfl⟩
        · rw [if_neg hp] at h3
          exact .inl h3
      | .listv ys => exact .inl h2
      | .tuplev ys => exact .inl h2
      | .intv n => exact .inl h2
      | .boolv b => exact .inl h2
      | .nonev => exact .inl h2
    · exact .inr h2

theorem mem_processDependencyItem {item : PyVal} {s : String}
    (h : s ∈ processDependencyItem item) : s ≠ "" ∧ ∃ q, s = cleanPackageName q := by
  match item with
  | .str t =>
    simp only [processDependencyItem] at h
    by_cases hp : cleanPackageName t ≠ ""
    · rw [if_pos hp] at h
      simp only [List.mem_singleton] at h
      subst h
      exact ⟨hp, t, rfl⟩
    · rw [if_neg hp] at h
      cases h
  | .listv xs =>
    simp only [processDependencyItem] at h
    rcases mem_subFold xs [] s h with h2 | h2
    · cases h2
    · exact h2
  | .tuplev xs =>
    simp only [processDependencyItem] at h
    rcases mem_subFold xs [] s h with h2 | h2
    · cases h2
    · exact h2
  | .intv n =>
    simp only [processDependencyItem] at h
    split at h
    · split at h
      · simp only [List.mem_singleton] at h
        subst h
        exact ⟨by assumption, pyStrip (pyValStr (PyVal.intv n)), rfl⟩
      · cases h
    · cases h
  | .boolv b =>
    simp only [processDependencyItem] at h
    split at h
    · split at h
      · simp only [List.mem_singleton] at h
        subst h
        exact ⟨by assumption, pyStrip (pyValStr (PyVal.boolv b)), rfl⟩
      · cases h
    · cases h
  | .nonev =>
    simp only [processDependencyItem] at h
    split at h
    · split at h
      · simp only [List.mem_singleton] at h
        subst h
        exact ⟨by assumption, pyStrip (pyValStr PyVal.nonev), rfl⟩
      · cases h
    · cases h

theorem nodup_uniquePackages (raw : PyVal) : (uniquePackagesOf raw).Nodup := by
  rw [uniquePackagesOf.eq_def]
  match raw with
  | .str t =>
    by_cases hp : cleanPackageName t ≠ ""
    · have : (if cleanPackageName t ≠ "" then [cleanPackageName t] else []) = [cleanPackageName t] := if_pos hp
      simp only [this]
      exact List.nodup_singleton _
    · have : (if cleanPackageName t ≠ "" then [cleanPackageName t] else []) = [] := if_neg hp
      simp only [this]
      exact List.nodup_nil
  | .listv xs => exact nodup_itemsFold xs [] List.nodup_nil
  | .tuplev xs => exact nodup_itemsFold xs [] List.nodup_nil
  | .intv n => exact List.nodup_nil
  | .boolv b => exact List.nodup_nil
  | .nonev => exact List.nodup_nil

theorem mem_uniquePackages (raw : PyVal) (s : String)
    (h : s ∈ uniquePackagesOf raw) :
    s ≠ "" ∧ ∃ q, s = cleanPackageName q := by
  rw [uniquePackagesOf.eq_def] at h
  match raw with
  | .str t =>
    have h2 : s ∈ (if cleanPackageName t ≠ "" then [cleanPackageName t] else []) := h
    by_cases hp : cleanPackageName t ≠ ""
    · rw [if_pos hp] at h2
      simp only [List.mem_singleton] at h2
      subst h2
      exact ⟨hp, t, rfl⟩
    · rw [if_neg hp] at h2
      cases h2
  | .listv xs =>
    rcases (mem_itemsFold xs [] s).mp h with h2 | ⟨item, _, hin⟩
    · cases h2
    · exact mem_processDependencyItem hin
  | .tuplev xs =>
    rcases (mem_itemsFold xs [] s).mp h with h2 | ⟨item, _, hin⟩
    · cases h2
    · exact mem_processDependencyItem hin
  | .intv n => cases h
  | .boolv b => cases h
  | .nonev => cases h

theorem mem_parseDependencies {raw : PyVal} {s : String} (h : s ∈ parseDependencies raw) :
    s ≠ "" ∧ ∃ q, s = cleanPackageName q := by
  rw [parseDependencies] at h
  by_cases ht : pyValTruthy raw = true
  · rw [ht] at h
    simp only [Bool.not_true, Bool.false_eq_true, if_false] at h
    have h2 := mem_pySorted.mp h
    have h3 := (List.mem_filter.mp h2).1
    exact mem_uniquePackages raw s h3
  · rw [Bool.not_eq_true] at ht
    rw [ht] at h
    simp only [Bool.not_false, if_true] at h
    cases h

theorem nodup_parseDependencies (raw : PyVal) : (parseDependencies raw).Nodup := by
  rw [parseDependencies]
  by_cases ht : pyValTruthy raw = true
  · rw [ht]
    simp only [Bool.not_true, Bool.false_eq_true, if_false]
    exact pySorted_nodup ((nodup_uniquePackages raw).filter _)
  · rw [Bool.not_eq_true] at ht
    rw [ht]
    simp only [Bool.not_false, if_true]
    exact List.nodup_nil

theorem sorted_parseDependencies (raw : PyVal) : List.Sorted (· ≤ ·) (parseDependencies raw) := by
  rw [parseDependencies]
  by_cases ht : pyValTruthy raw = true
  · rw [ht]
    simp only [Bool.not_true, Bool.false_eq_true, if_false]
    exact pySorted_sorted _
  · rw [Bool.not_eq_true] at ht
    rw [ht]
    simp only [Bool.not_false, if_true]
    exact List.sorted_nil

end HelperLemmas

section ClaimTheorems
/-!  ### The claims  -/

/-- C6: for every source file, dependency extraction returns a
deduplicated, lexicographically sorted list whose every element matches
`^[A-Za-z0-9][A-Za-z0-9._-]*$`, and extracting twice from the same file
yields equal lists. -/
theorem extractDependencies_sorted_dedup_wellformed (o : ExtractOutcome) :
    List.Sorted (· ≤ ·) (extractDependenciesFromFile o) ∧
    (extractDependenciesFromFile o).Nodup ∧
    (∀ s, s ∈ extractDependenciesFromFile o → validPackageName s = true) ∧
    extractDependenciesFromFile o = extractDependenciesFromFile o := by
  refine ⟨?_, ?_, ?_, rfl⟩
  · match o with
    | .fileMissing => exact List.sorted_nil
    | .raised m => exact List.sorted_nil
    | .noVariable => exact List.sorted_nil
    | .found raw => exact sorted_parseDependencies raw
  · match o with
    | .fileMissing => exact List.nodup_nil
    | .raised m => exact List.nodup_nil
    | .noVariable => exact List.nodup_nil
    | .found raw => exact nodup_parseDependencies raw
  · intro s hs
    match o with
    | .fileMissing => cases hs
    | .raised m => cases hs
    | .noVariable => cases hs
    | .found raw =>
      obtain ⟨hne, q, rfl⟩ := mem_parseDependencies hs
      exact (cleanPackageName_spec q hne).1

theorem extractDependencies_wellformed_witness :
    validPackageName "opencv-python" = true :=
  (extractDependencies_sorted_dedup_wellformed (.found (.listv [.str "cv2"]))).2.2.1
    "opencv-python" (by decide)

/-- C7: the fixed alias table is applied exactly once per candidate — the
extracted names are fixed points of the alias map, a file declaring `cv2`
yields `opencv-python`, and `cv2` itself never appears in a result. -/
theorem alias_mapping_applied_once :
    (∀ raw p, p ∈ parseDependencies raw → aliasApply p = p) ∧
    parseDependencies (.listv [.str "cv2"]) = ["opencv-python"] ∧
    (∀ raw, "cv2" ∉ parseDependencies raw) := by
  refine ⟨?_, rfl, ?_⟩
  · intro raw p hp
    obtain ⟨hne, q, rfl⟩ := mem_parseDependencies hp
    exact (cleanPackageName_spec q hne).2.1
  · intro raw hmem
    obtain ⟨hne, q, hq⟩ := mem_parseDependencies hmem
    exact (cleanPackageName_spec q (hq ▸ hne)).2.2 hq.symm

theorem alias_mapping_applied_once_witness :
    aliasApply "opencv-python" = "opencv-python" ∧
    "cv2" ∉ parseDependencies (.str "cv2") :=
  ⟨alias_mapping_applied_once.1 (.listv [.str "cv2"]) "opencv-python" (by decide),
   alias_mapping_applied_once.2.2 (.str "cv2")⟩


/-- C8: the claim says the launcher child runs under a hard 300-second
wall clock; the code passes `timeout=30000` seconds (its own comment and
timeout message say "5 minutes"), so a child running 301 seconds is not
killed — the timeout only fires beyond 30000 seconds. -/
theorem launch_timeout_is_30000_not_300 :
    executionTimeoutSeconds = 30000 ∧
    executionTimeoutSeconds ≠ 300 ∧
    launchKilled 301 = false ∧
    launchKilled 30001 = true ∧
    launchTimeoutResult = .error executionTimeoutMessage ∧
    executionTimeoutMessage = "Tool execution timeout (5 minutes)" ∧
    installTimeoutSeconds = 30000 := by
  refine ⟨rfl, by decide, rfl, rfl, rfl, rfl, rfl⟩

theorem pipeline_findDeps_congr (n : String) (ui : JDict) (o : PipelineOutcomes)
    (f1 f2 : ExtractOutcome)
    (h : extractDependenciesFromFile f1 = extractDependenciesFromFile f2) :
    executeToolRun n ui { o with findDeps := f1 } = executeToolRun n ui { o with findDeps := f2 } := by
  cases o
  simp only [executeToolRun, pipelineBody, afterEnv, h]

/-- C10: `extract_dependencies_from_file` is total — a missing file, a
read/parse exception, or an absent `dependencies` variable all yield the
empty list, and the pipeline behaves exactly as if the tool declared no
dependencies (step 6 has no failure path; zero installs happen). -/
theorem dependency_extraction_never_fails (n : String) (ui : JDict)
    (o : PipelineOutcomes) (m : String) :
    extractDependenciesFromFile .fileMissing = [] ∧
    extractDependenciesFromFile (.raised m) = [] ∧
    extractDependenciesFromFile .noVariable = [] ∧
    executeToolRun n ui { o with findDeps := .fileMissing } =
      executeToolRun n ui { o with findDeps := .noVariable } ∧
    executeToolRun n ui { o with findDeps := .raised m } =
      executeToolRun n ui { o with findDeps := .noVariable } := by
  refine ⟨rfl, rfl, rfl, pipeline_findDeps_congr n ui o _ _ rfl, pipeline_findDeps_congr n ui o _ _ rfl⟩

/-- C2: whenever the pipeline's sandbox-creation step succeeded during a
call, every exit path — success envelope, error envelope, or an exception
caught by the `except` clause — reaches the `finally` teardown with that
sandbox's root directory; and `cleanup_environment` on an existing
directory either removes it within three attempts or registers a deferred
`atexit` removal. -/
theorem sandbox_cleanup_on_every_exit :
    (∀ (n : String) (ui : JDict) (o : PipelineOutcomes) (env : EnvInfo),
        (pipelineBody n ui o).2 = some env →
        (executeToolRun n ui o).cleanupTarget = some env.temp_base_dir) ∧
    (∀ a1 a2 a3 : Bool,
        cleanupEnvironment true true a1 a2 a3 = .removed ∨
        cleanupEnvironment true true a1 a2 a3 = .deferredRegistered) := by
  constructor
  · intro n ui o env h
    simp only [executeToolRun, h]
    rfl
  · intro a1 a2 a3
    cases a1 <;> cases a2 <;> cases a3 <;> simp [cleanupEnvironment]

theorem sandbox_cleanup_witness :
    (pipelineBody "T" [] happyOutcomes).2 = some sampleEnvInfo ∧
    (executeToolRun "T" [] happyOutcomes).cleanupTarget = some "/tmp/isolated_tool_T_1" ∧
    cleanupEnvironment true true false false false = .deferredRegistered :=
  ⟨rfl, sandbox_cleanup_on_every_exit.1 "T" [] happyOutcomes sampleEnvInfo rfl,
   (sandbox_cleanup_on_every_exit.2 false false false).resolve_left (by decide)⟩

/-- C1: code bug — the f-string at line 119 of `schema_validator.py` has
the conditional expression inside the string literal, so for schema
`naicsInputSchema` and input `{}` the recorded error is the garbled
`Missing required field: 'root.naics_code' if path != 'root' else field`
and never the intended `Missing required field: naics_code`; the error
envelope of step 2 does carry the garbled string under
`details.validation_errors` with a message starting with
`Input validation failed`. -/
theorem missing_required_message_garbled :
    validateInput [] naicsInputSchema = ⟨false, [], [naicsGarbledMsg], []⟩ ∧
    naicsGarbledMsg ≠ "Missing required field: naics_code" ∧
    (executeToolRun "NAICSExcelTool" [] naicsOutcomes).response =
      .error ("Input validation failed: " ++ pyReprStrList [naicsGarbledMsg])
        (.validationErrors [naicsGarbledMsg]) ∧
    startsWithPy ("Input validation failed: " ++ pyReprStrList [naicsGarbledMsg])
      "Input validation failed" = true := by
  refine ⟨rfl, by decide, rfl, rfl⟩

/-- C9: corrected — on a 404 the substring-based suggestions (capped at 5)
are computed and logged, but the returned error dict carries only
`status` and `message`; the suggestions are not part of the result. -/
theorem notfound_suggestions_only_logged (name dir e : String)
    (listing : Except String (List String)) (h : substrB "404" e = true) :
    (downloadToolFromGithub name dir (.ok ()) (.error e) listing).result =
      .error (toolNotFoundMessage name) ∧
    (downloadToolFromGithub name dir (.ok ()) (.error e) listing).loggedSuggestions =
      (match listing with
       | .ok files =>
         (similarTools name ((files.filter (fun f => endsWithPy f ".py")).map
           (fun f => replaceStr f ".py" ""))).take 5
       | .error _ => []) ∧
    (downloadToolFromGithub name dir (.ok ()) (.error e) listing).loggedSuggestions.length ≤ 5 := by
  refine ⟨?_, ?_, ?_⟩
  · simp only [downloadToolFromGithub, h, if_true]
  · cases listing <;> simp [downloadToolFromGithub, h]
  · cases listing with
    | error m => simp [downloadToolFromGithub, h]
    | ok files =>
      simp only [downloadToolFromGithub, h, if_true]
      calc ((similarTools name ((files.filter (fun f => endsWithPy f ".py")).map
              (fun f => replaceStr f ".py" ""))).take 5).length ≤ 5 := by
            rw [List.length_take]
            omega

theorem notfound_suggestions_witness :
    (downloadToolFromGithub "NAICS" "/t" (.ok ()) (.error "404 not found")
      (.ok ["NAICSExcelTool.py"])).result = .error (toolNotFoundMessage "NAICS") ∧
    (downloadToolFromGithub "NAICS" "/t" (.ok ()) (.error "404 not found")
      (.ok ["NAICSExcelTool.py"])).loggedSuggestions.length ≤ 5 :=
  ⟨(notfound_suggestions_only_logged "NAICS" "/t" "404 not found" (.ok ["NAICSExcelTool.py"]) rfl).1,
   (notfound_suggestions_only_logged "NAICS" "/t" "404 not found" (.ok ["NAICSExcelTool.py"]) rfl).2.2⟩

theorem notfound_suggestions_not_in_result :
    (downloadToolFromGithub "NAICS" "/t" (.ok ()) (.error "404 not found")
      (.ok ["NAICSExcelTool.py"])).loggedSuggestions = ["NAICSExcelTool"] ∧
    (downloadToolFromGithub "NAICS" "/t" (.ok ()) (.error "404 not found")
      (.ok ["NAICSExcelTool.py"])).result = .error "Tool 'NAICS.py' not found in repository!" ∧
    substrB "NAICSExcelTool"
      (ghMessage (downloadToolFromGithub "NAICS" "/t" (.ok ()) (.error "404 not found")
        (.ok ["NAICSExcelTool.py"])).result) = false := by
  refine ⟨rfl, rfl, by decide⟩

/-- C5, counterexample: an ordinary failed validation hands back a data
mapping in which field `a` has already been coerced from `"1"` to the
integer `1` while field `b` failed — the claim that a failed validation
never contains partially-converted values is false on the code. -/
theorem failed_validation_partial_data_cx :
    validateInput [("a", .str "1"), ("b", .str "x")] twoIntSchema =
      ⟨false, [("a", .int 1)], ["Field 'b': Cannot convert 'x' to integer"], []⟩ ∧
    ("a", JVal.int 1) ∈ (validateInput [("a", .str "1"), ("b", .str "x")] twoIntSchema).data ∧
    (validateInput [("a", .str "1"), ("b", .str "x")] twoIntSchema).valid = false := by
  refine ⟨rfl, by rw [show (validateInput [("a", .str "1"), ("b", .str "x")] twoIntSchema).data =
    [("a", JVal.int 1)] from rfl]; exact List.mem_singleton.mpr rfl, rfl⟩

/-- C5, amended: only when validation aborts with an internal exception is
the returned data mapping empty; an ordinary field-validation failure may
return data containing the coerced values of the fields that passed
individually. -/
theorem failed_validation_data_amended :
    (∀ (doc : JDict) (schema : JVal) (e : PyExc),
        validateBody doc schema = .error e →
        validateInput doc schema = ⟨false, [], ["Validation error: " ++ e.msg], []⟩) ∧
    (∃ (doc : JDict) (schema : JVal),
        (validateInput doc schema).valid = false ∧
        (validateInput doc schema).data ≠ []) := by
  constructor
  · intro doc schema e h
    simp only [validateInput, h]
  · refine ⟨[("a", .str "1"), ("b", .str "x")], twoIntSchema, rfl, ?_⟩
    rw [show (validateInput [("a", .str "1"), ("b", .str "x")] twoIntSchema).data =
      [("a", JVal.int 1)] from rfl]
    exact List.cons_ne_nil _ _

theorem failed_validation_data_amended_witness :
    validateInput [] defaultedSchema =
      ⟨false, [], ["Validation error: cannot access local variable 'field_path' where it is not associated with a value"], []⟩ :=
  failed_validation_data_amended.1 [] defaultedSchema
    ⟨false, "cannot access local variable 'field_path' where it is not associated with a value"⟩ rfl

theorem validateConstraints_null (fn : String) (fs : JDict) :
    validateConstraints fn .null fs = ([], none) := rfl

theorem convertToInteger_error_caught {v : JVal} {e : PyExc}
    (h : convertToInteger v = .error e) : e.caught = true := by
  cases v with
  | str s =>
    simp only [convertToInteger] at h
    split at h
    · cases h
    · split at h
      · split at h
        · cases h
        · cases h
          rfl
      · cases h
        rfl
  | null => cases h; rfl
  | bool b => cases h
  | int n => cases h
  | float q => cases h
  | arr xs => cases h; rfl
  | obj kvs => cases h; rfl

theorem convertToNumber_error_caught {v : JVal} {e : PyExc}
    (h : convertToNumber v = .error e) : e.caught = true := by
  cases v with
  | str s =>
    simp only [convertToNumber] at h
    split at h
    · split at h
      · cases h
      · cases h
        rfl
    · split at h
      · cases h
      · cases h
        rfl
  | null => cases h; rfl
  | bool b => cases h
  | int n => cases h
  | float q => cases h
  | arr xs => cases h; rfl
  | obj kvs => cases h; rfl

theorem convertToBoolean_error_caught {v : JVal} {e : PyExc}
    (h : convertToBoolean v = .error e) : e.caught = true := by
  cases v with
  | str s =>
    simp only [convertToBoolean] at h
    split at h
    · cases h
    · split at h
      · cases h
      · cases h
        rfl
  | null => cases h; rfl
  | bool b => cases h
  | int n => cases h
  | float q => cases h; rfl
  | arr xs => cases h; rfl
  | obj kvs => cases h; rfl

theorem convertToArray_error_caught {v : JVal} {e : PyExc}
    (h : convertToArray v = .error e) : e.caught = true := by
  cases v with
  | str s =>
    simp only [convertToArray] at h
    split at h
    · cases h
    · cases h
  | null => cases h; rfl
  | bool b => cases h; rfl
  | int n => cases h; rfl
  | float q => cases h; rfl
  | arr xs => cases h
  | obj kvs => cases h; rfl

theorem convertToObject_error_caught {v : JVal} {e : PyExc}
    (h : convertToObject v = .error e) : e.caught = true := by
  cases v with
  | str s =>
    simp only [convertToObject] at h
    split at h
    · cases h
    · cases h
      rfl
  | null => cases h; rfl
  | bool b => cases h; rfl
  | int n => cases h; rfl
  | float q => cases h; rfl
  | arr xs => cases h; rfl
  | obj kvs => cases h

theorem converterFor_error_caught {t : String} {v : JVal} {e : PyExc}
    (h : converterFor t v = .error e) : e.caught = true := by
  rw [converterFor] at h
  split_ifs at h <;>
    first
      | exact convertToInteger_error_caught h
      | exact convertToNumber_error_caught h
      | exact convertToBoolean_error_caught h
      | exact convertToArray_error_caught h
      | exact convertToObject_error_caught h
      | simp at h

theorem convertTypeAux_error_caught {t : JVal} {v : JVal} {e : PyExc}
    (h : (match t with
          | JVal.str s => converterFor s v
          | JVal.arr _ => Except.error ⟨true, "unhashable type: 'list'"⟩
          | JVal.obj _ => Except.error ⟨true, "unhashable type: 'dict'"⟩
          | _ => Except.ok (convertToString v)) = Except.error e) : e.caught = true := by
  cases t with
  | str s => exact converterFor_error_caught h
  | arr xs => cases h; rfl
  | obj kvs => cases h; rfl
  | null => cases h
  | bool b => cases h
  | int n => cases h
  | float q => cases h

theorem convertType_error_caught {v t : JVal} {e : PyExc}
    (h : convertType v t = .error e) : e.caught = true := by
  cases v with
  | null => cases h
  | bool b => exact convertTypeAux_error_caught (v := .bool b) h
  | int n => exact convertTypeAux_error_caught (v := .int n) h
  | float q => exact convertTypeAux_error_caught (v := .float q) h
  | str s => exact convertTypeAux_error_caught (v := .str s) h
  | arr xs => exact convertTypeAux_error_caught (v := .arr xs) h
  | obj kvs => exact convertTypeAux_error_caught (v := .obj kvs) h

theorem unionConvert_of_ne_null {value : JVal} (t cur : JVal) (h : value ≠ .null) :
    unionConvert value t cur = convertType value t := by
  cases value with
  | null => exact absurd rfl h
  | bool b => rfl
  | int n => rfl
  | float q => rfl
  | str s => rfl
  | arr xs => rfl
  | obj kvs => rfl

theorem unionConvert_error_caught {value t cur : JVal} {e : PyExc}
    (h : unionConvert value t cur = .error e) : e.caught = true := by
  cases value with
  | null => cases h
  | bool b => exact convertType_error_caught (show convertType (.bool b) t = .error e from h)
  | int n => exact convertType_error_caught (show convertType (.int n) t = .error e from h)
  | float q => exact convertType_error_caught (show convertType (.float q) t = .error e from h)
  | str s => exact convertType_error_caught (show convertType (.str s) t = .error e from h)
  | arr xs => exact convertType_error_caught (show convertType (.arr xs) t = .error e from h)
  | obj kvs => exact convertType_error_caught (show convertType (.obj kvs) t = .error e from h)

/-- C3: the divergence of the union-type loop on the state the
`(ValueError, TypeError)` handler fails to reset.  For the schema
`{id: {type: [string, integer], enum: [5], pattern: 123}}` and input
`{id: "5"}`, the integer branch is the first (and only) branch whose
coercion succeeds and whose constraints all pass — exactly the claim's
winner, as the spec-side `specUnionWins` find shows — yet validation
returns invalid with the aggregate all-branches-failed error and no
branch warning: the string branch appended its enum error and then raised
a caught `TypeError` from the non-string pattern, and the handler of
lines 191-193, unlike the reset of lines 188-189, leaves
`result["valid"]`/`result["errors"]` poisoned for the integer branch. -/
theorem union_first_match_state_poisoning :
    ([JVal.str "string", JVal.str "integer"].find?
        (specUnionWins "id" (.str "5") poisonedIdFieldSchema) =
      some (JVal.str "integer")) ∧
    (validateInput [("id", .str "5")] poisonedUnionSchema).valid = false ∧
    (validateInput [("id", .str "5")] poisonedUnionSchema).warnings = [] ∧
    (validateInput [("id", .str "5")] poisonedUnionSchema).errors =
      [unionAggregateMsg "id" (.str "5") [.str "string", .str "integer"]
        ["Cannot convert to string: first argument must be string or compiled pattern",
         "Type integer failed constraints: " ++
           pyReprStrList ["Field 'id' must be one of: [5], got: 5"]]] := by
  refine ⟨rfl, rfl, rfl, rfl⟩

open PyEmbed in
/-- `_normalize_schema` on a single-key wrapper schema: the wrapper body
becomes `properties`, the outer `required` is kept, and the key is recorded
under `_wrapper_key`. -/
theorem normalizeSchema_wrapper (skvs wkvs : JDict) (k : String)
    (hp : jget skvs "properties" = some (.obj [(k, .obj wkvs)]))
    (hnotype : pyTruthyOpt (jget wkvs "type") = false)
    (htyped : (wkvs.any fun kv => match kv.2 with
        | .obj vkvs => pyTruthyOpt (jget vkvs "type")
        | _ => false) = true) :
    normalizeSchema (.obj skvs) =
      .ok [("type", .str "object"), ("properties", .obj wkvs),
           ("required", jgetD skvs "required" (.arr [])),
           ("_wrapper_key", .str k)] := by
  rw [normalizeSchema]
  rw [show jgetD skvs "properties" (.obj []) = .obj [(k, .obj wkvs)] from by
    rw [jgetD, hp]; rfl]
  simp only [pyLen, pyKeys, jget, if_pos rfl, hnotype, htyped, Bool.not_false, Bool.true_and,
    if_true, List.map]
  rfl

open PyEmbed in
/-- `_normalize_schema` leaves the inner schema of a wrapper unchanged:
when some property of `wkvs` carries a truthy `type`, the single property
of the inner schema (if there is exactly one) is itself typed, so the
wrapper detection cannot fire again. -/
theorem normalizeSchema_inner (skvs wkvs : JDict)
    (htyped : (wkvs.any fun kv => match kv.2 with
        | JVal.obj vkvs => pyTruthyOpt (jget vkvs "type")
        | _ => false) = true) :
    normalizeSchema (innerSchemaOf skvs wkvs) =
      Except.ok [("type", JVal.str "object"), ("properties", JVal.obj wkvs),
                 ("required", jgetD skvs "required" (JVal.arr []))] := by
  rw [innerSchemaOf, normalizeSchema]
  have hprops : forall (P R : JVal),
      jgetD [("type", JVal.str "object"), ("properties", P), ("required", R)]
        "properties" (JVal.obj []) = P := fun P R => rfl
  have hreq : forall (P R : JVal),
      jgetD [("type", JVal.str "object"), ("properties", P), ("required", R)]
        "required" (JVal.arr []) = R := fun P R => rfl
  rw [hprops, hreq]
  match wkvs, htyped with
  | (m, v) :: (p :: rest), _ =>
    simp only [pyLen, List.length_cons, pyKeys]
    rw [if_neg (by simp)]
  | [(m, v)], htyped =>
    have hj : jget [(m, v)] m = some v := by rw [jget, if_pos rfl]
    cases v with
    | obj vkvs =>
      have hT : pyTruthyOpt (jget vkvs "type") = true := by
        simpa [List.any_cons, List.any_nil] using htyped
      simp only [pyLen, List.length_cons, List.length_nil, Nat.zero_add, pyKeys, List.map,
        reduceIte, hj, hT, Bool.not_true, Bool.false_and, Bool.false_eq_true, if_false]
    | null => simp only [pyLen, List.length_cons, List.length_nil, Nat.zero_add, pyKeys,
        List.map, reduceIte, hj]
    | bool b => simp only [pyLen, List.length_cons, List.length_nil, Nat.zero_add, pyKeys,
        List.map, reduceIte, hj]
    | int n => simp only [pyLen, List.length_cons, List.length_nil, Nat.zero_add, pyKeys,
        List.map, reduceIte, hj]
    | float q => simp only [pyLen, List.length_cons, List.length_nil, Nat.zero_add, pyKeys,
        List.map, reduceIte, hj]
    | str s => simp only [pyLen, List.length_cons, List.length_nil, Nat.zero_add, pyKeys,
        List.map, reduceIte, hj]
    | arr xs => simp only [pyLen, List.length_cons, List.length_nil, Nat.zero_add, pyKeys,
        List.map, reduceIte, hj]

open PyEmbed in
/-- C4, amended: the wrapper round trip
`validate(wrap(x), S) = wrap(validate(x, innerS))` holds for every
single-key wrapper schema (typeless wrapper body with at least one typed
child) provided the wrapper key is non-empty: line 63 of
`schema_validator.py` tests the key's truthiness rather than its presence,
so an empty-string key does not switch validation to the inner document
(see the counterexample). -/
theorem wrapper_roundtrip (skvs wkvs x : JDict) (k : String)
    (hp : jget skvs "properties" = some (JVal.obj [(k, JVal.obj wkvs)]))
    (hk : k ≠ "")
    (hnotype : pyTruthyOpt (jget wkvs "type") = false)
    (htyped : (wkvs.any fun kv => match kv.2 with
        | JVal.obj vkvs => pyTruthyOpt (jget vkvs "type")
        | _ => false) = true) :
    validateInput [(k, JVal.obj x)] (JVal.obj skvs) =
      wrapR k (validateInput x (innerSchemaOf skvs wkvs)) := by
  have hnorm := normalizeSchema_wrapper skvs wkvs k hp hnotype htyped
  have hnorm2 := normalizeSchema_inner skvs wkvs htyped
  have hj : jget [(k, JVal.obj x)] k = some (JVal.obj x) := by rw [jget, if_pos rfl]
  have hjh : jhas [(k, JVal.obj x)] k = true := by rw [jhas, hj]; rfl
  have hjd : jgetD [(k, JVal.obj x)] k JVal.null = JVal.obj x := by rw [jgetD, hj]; rfl
  have huw : pyTruthyOpt (some (JVal.str k)) = true := decide_eq_true hk
  have hpt : pyTruthyOpt (some (JVal.obj wkvs)) = true := by
    cases wkvs with
    | nil => exact absurd htyped (by decide)
    | cons a as => rfl
  rw [validateInput, validateBody, hnorm]
  show (match
      (if (!pyTruthyOpt (some (JVal.obj wkvs))) = true then
        Except.ok (⟨true, [(k, JVal.obj x)], [], ["No properties to validate"]⟩ : VResult)
      else
        match vObjFull
            (if pyTruthyOpt (some (JVal.str k)) = true then
              if jhas [(k, JVal.obj x)] k = true then jgetD [(k, JVal.obj x)] k JVal.null
              else JVal.obj [(k, JVal.obj x)]
            else JVal.obj [(k, JVal.obj x)])
            (JVal.obj [("type", JVal.str "object"), ("properties", JVal.obj wkvs),
              ("required", jgetD skvs "required" (JVal.arr [])),
              ("_wrapper_key", JVal.str k)]) "root" with
        | Except.error e => Except.error e
        | Except.ok r =>
          if (pyTruthyOpt (some (JVal.str k)) && r.valid) = true then
            Except.ok (⟨r.valid, [(k, JVal.obj r.data)], r.errors, r.warnings⟩ : VResult)
          else Except.ok r) with
    | Except.ok r => r
    | Except.error e => (⟨false, [], ["Validation error: " ++ e.msg], []⟩ : VResult)) =
    wrapR k (validateInput x (innerSchemaOf skvs wkvs))
  rw [hpt, huw, hjh, hjd]
  simp only [Bool.not_true, Bool.false_eq_true, if_false, if_true, Bool.true_and]
  rw [show vObjFull (JVal.obj x)
      (JVal.obj [("type", JVal.str "object"), ("properties", JVal.obj wkvs),
        ("required", jgetD skvs "required" (JVal.arr [])),
        ("_wrapper_key", JVal.str k)]) "root" =
      vObjFull (JVal.obj x) (innerSchemaOf skvs wkvs) "root" from rfl]
  have hR : validateInput x (innerSchemaOf skvs wkvs) =
      (match vObjFull (JVal.obj x) (innerSchemaOf skvs wkvs) "root" with
       | Except.ok r => r
       | Except.error e => (⟨false, [], ["Validation error: " ++ e.msg], []⟩ : VResult)) := by
    rw [validateInput, validateBody, hnorm2]
    show (match
        (if (!pyTruthyOpt (some (JVal.obj wkvs))) = true then
          Except.ok (⟨true, x, [], ["No properties to validate"]⟩ : VResult)
        else
          match vObjFull (JVal.obj x) (innerSchemaOf skvs wkvs) "root" with
          | Except.error e => Except.error e
          | Except.ok r => Except.ok r) with
      | Except.ok r => r
      | Except.error e => (⟨false, [], ["Validation error: " ++ e.msg], []⟩ : VResult)) = _
    rw [hpt]
    simp only [Bool.not_true, Bool.false_eq_true, if_false]
    cases vObjFull (JVal.obj x) (innerSchemaOf skvs wkvs) "root" with
    | ok r => rfl
    | error e => rfl
  rw [hR]
  cases vObjFull (JVal.obj x) (innerSchemaOf skvs wkvs) "root" with
  | error e => rfl
  | ok r =>
    obtain ⟨rv, rd, re, rw0⟩ := r
    cases rv with
    | true => rfl
    | false => rfl


open PyEmbed in
/-- C4, counterexample: with the wrapper key equal to the empty string the
schema still satisfies the claim's conditions (single typeless wrapper
property with a typed child), yet `validate_input` does not round-trip:
line 63 tests the key's truthiness, so an empty-string key never switches
to the inner document, and the wrapped document is validated as-is
(producing an unknown-field warning the re-wrapped inner validation does
not have). -/
theorem wrapper_roundtrip_empty_key_cx :
    jget emptyKeyWrapperSkvs "properties" =
      some (JVal.obj [("", JVal.obj emptyKeyWrapperWkvs)]) ∧
    pyTruthyOpt (jget emptyKeyWrapperWkvs "type") = false ∧
    (emptyKeyWrapperWkvs.any fun kv => match kv.2 with
      | JVal.obj vkvs => pyTruthyOpt (jget vkvs "type")
      | _ => false) = true ∧
    validateInput [("", JVal.obj [])] (JVal.obj emptyKeyWrapperSkvs) ≠
      wrapR "" (validateInput [] (innerSchemaOf emptyKeyWrapperSkvs emptyKeyWrapperWkvs)) :=
  ⟨rfl, rfl, rfl, fun h =>
    Bool.noConfusion (congrArg (fun r => r.warnings.isEmpty) h)⟩

/-- C4 witness: the round trip at a concrete wrapper schema
(`submission_data` wrapping a typed `naics_code`) and document. -/
theorem wrapper_roundtrip_witness :
    validateInput [("submission_data", JVal.obj roundtripDoc)]
        (JVal.obj roundtripSkvs) =
      wrapR "submission_data"
        (validateInput roundtripDoc (innerSchemaOf roundtripSkvs roundtripWkvs)) :=
  wrapper_roundtrip roundtripSkvs roundtripWkvs roundtripDoc "submission_data"
    rfl (by decide) rfl rfl

end ClaimTheorems
